import Mathlib

/-!
Verification of the Su95 FADEC / autoflight sources against their
natural-language specification.

The C++ sources operate on IEEE doubles; here every double is embedded as an
exact rational (`ℚ`), since all the code under study uses only field
operations, comparisons, `fmod`, `abs`, `min`/`max`.  Calibration polynomials
(`RegPolynomials.h`), the `limitN1` table code (`ThrustLimits.h`) and the
`expFBW`/`sqrt`/`delta2` helpers are not among the given sources; the spec
treats them as out-of-scope calibration data, so they appear below as abstract
function parameters.
-/

namespace Su95

/-! ## common.h : imbalance decoder -/

/-- Truncation toward zero of a rational number, embedding the C cast from
`double` to `int` (and the truncation inside `fmod`). -/
def ratTrunc (q : ℚ) : ℤ :=
  if 0 ≤ q then ⌊q⌋ else -⌊-q⌋

/-- C `fmod x y = x - trunc (x / y) * y`, on exact rationals. -/
def cFmod (x y : ℚ) : ℚ :=
  x - (ratTrunc (x / y) : ℚ) * y

/-- Body of the `while (parameter > 0)` loop of `imbalance_extractor`
(common.h:68-72): each pass stores `fmod(imbalance, 100)` in `reg` and then
divides `imbalance` by 100. -/
def extractorLoop : ℕ → ℚ → ℚ → ℚ
  | 0, _, reg => reg
  | n + 1, imb, _ => extractorLoop n (imb / 100) (cFmod imb 100)

/-- `imbalance_extractor` (common.h:63-75): sets `parameter = 8 - parameter`,
runs the loop that many times, and returns `int(reg)`. -/
def imbalance_extractor (imbalance : ℚ) (parameter : ℤ) : ℤ :=
  ratTrunc (extractorLoop (8 - parameter).toNat imbalance 0)

/-- The packed imbalance code of the spec scenario, `0205043002150306`, as the
number produced by `generateEngineImbalance` (EngineControl.h:168-174): eight
two-digit fields, engine first. -/
def scenarioImbalanceCode : ℚ :=
  2 * 100 ^ 7 + 5 * 100 ^ 6 + 4 * 100 ^ 5 + 30 * 100 ^ 4
    + 2 * 100 ^ 3 + 15 * 100 ^ 2 + 3 * 100 + 6

/-! ## EngineControl.h : engine state machine -/

/-- Conversion factors of EngineControl.h:88-89. -/
def LBS_TO_KGS : ℚ := 0.4535934

def KGS_TO_LBS : ℚ := 1 / 0.4535934

/-- Result of one `engineStateMachine` call: the state written back, whether
the per-engine timer was reset to 0, and the `simPaused` flag. -/
structure MachineResult where
  state : ℤ
  resetTimer : Bool
  simPaused : Bool
  deriving DecidableEq, Repr

/-- Block `// Present State OFF` (EngineControl.h:214-222). -/
def offBlock (engineIgniter engineStarter simN2 : ℚ) : ℤ :=
  if engineIgniter = 1 ∧ engineStarter = 1 ∧ simN2 > 20 then 1
  else if engineIgniter = 2 ∧ engineStarter = 1 then 2
  else 0

/-- Block `// Present State ON` (EngineControl.h:225-231). -/
def onBlock (engineStarter : ℚ) : ℤ :=
  if engineStarter = 1 then 1 else 4

/-- Block `// Present State Starting` (EngineControl.h:234-244); the Bool is
the `resetTimer` assignment. -/
def startingBlock (engineStarter simN2 idleN2 : ℚ) : ℤ × Bool :=
  if engineStarter = 1 ∧ simN2 ≥ idleN2 - 0.1 then (1, true)
  else if engineStarter = 0 then (4, true)
  else (2, false)

/-- Block `// Present State Re-Starting` (EngineControl.h:247-257). -/
def restartingBlock (engineStarter simN2 idleN2 : ℚ) : ℤ × Bool :=
  if engineStarter = 1 ∧ simN2 ≥ idleN2 - 0.1 then (1, true)
  else if engineStarter = 0 then (4, true)
  else (3, false)

/-- Block `// Present State Shutting` (EngineControl.h:260-273). -/
def shuttingBlock (engineIgniter engineStarter simN2 egtFbw ambientTemp : ℚ) :
    ℤ × Bool :=
  if engineIgniter = 2 ∧ engineStarter = 1 then (3, true)
  else if engineStarter = 0 ∧ simN2 < 0.05 ∧ egtFbw ≤ ambientTemp then (0, true)
  else if engineStarter = 1 ∧ simN2 > 50 then (3, true)
  else (4, false)

/-- `engineStateMachine` (EngineControl.h:182-290).  `deltaTimeDiff = 0` is the
paused case (state moved to its `+10` variant, or kept if already `>= 10`);
otherwise the five per-state blocks run sequentially, each firing when the
state *currently held by the local variable* matches, so several blocks can
fire in a single call.  `resetTimer` records whether any block set the reset
flag; the caller then writes timer 0. -/
def engineStateMachine (stateIn : ℤ)
    (engineIgniter engineStarter simN2 idleN2 ambientTemp egtFbw
      deltaTimeDiff : ℚ) : MachineResult :=
  if deltaTimeDiff = 0 then
    { state := if stateIn < 10 then stateIn + 10 else stateIn,
      resetTimer := false, simPaused := true }
  else
    let s1 : ℤ :=
      if stateIn = 0 ∨ stateIn = 10 then offBlock engineIgniter engineStarter simN2
      else stateIn
    let s2 : ℤ :=
      if s1 = 1 ∨ s1 = 11 then onBlock engineStarter else s1
    let p3 : ℤ × Bool :=
      if s2 = 2 ∨ s2 = 12 then startingBlock engineStarter simN2 idleN2
      else (s2, false)
    let p4 : ℤ × Bool :=
      if p3.1 = 3 ∨ p3.1 = 13 then
        let r := restartingBlock engineStarter simN2 idleN2
        (r.1, p3.2 || r.2)
      else p3
    let p5 : ℤ × Bool :=
      if p4.1 = 4 ∨ p4.1 = 14 then
        let r := shuttingBlock engineIgniter engineStarter simN2 egtFbw ambientTemp
        (r.1, p4.2 || r.2)
      else p4
    { state := p5.1, resetTimer := p5.2, simPaused := false }

/-- The engine states that the FADEC ever writes (base states 0-4 and their
`+10` paused variants). -/
def validEngineState (s : ℤ) : Prop :=
  s = 0 ∨ s = 1 ∨ s = 2 ∨ s = 3 ∨ s = 4 ∨
  s = 10 ∨ s = 11 ∨ s = 12 ∨ s = 13 ∨ s = 14

instance (s : ℤ) : Decidable (validEngineState s) := by
  unfold validEngineState; infer_instance

/-- Modelled from the spec: the single-step transition table of section 4.2 /
claim C1, dispatching once on the current state (paused variants standing for
their base state, as the spec's resume rule says): OFF goes to ON iff
igniter=IGNITION(1), starter on and N2>20, to STARTING iff igniter=START(2)
and starter on; ON stays iff the starter stays on, else SHUTTING; STARTING and
RESTARTING go to ON iff starter on and N2 >= idleN2-0.1, to SHUTTING iff the
starter is off, else remain; SHUTTING goes to RESTARTING iff (igniter=START
and starter on) or (starter on and N2>50), to OFF iff starter off and N2<0.05
and EGT <= ambient, else remains. -/
def specStateStep (state : ℤ)
    (engineIgniter engineStarter simN2 idleN2 ambientTemp egtFbw : ℚ) : ℤ :=
  if state = 0 ∨ state = 10 then
    (if engineIgniter = 1 ∧ engineStarter = 1 ∧ simN2 > 20 then 1
     else if engineIgniter = 2 ∧ engineStarter = 1 then 2
     else 0)
  else if state = 1 ∨ state = 11 then
    (if engineStarter = 1 then 1 else 4)
  else if state = 2 ∨ state = 12 then
    (if engineStarter = 1 ∧ simN2 ≥ idleN2 - 0.1 then 1
     else if engineStarter = 0 then 4
     else 2)
  else if state = 3 ∨ state = 13 then
    (if engineStarter = 1 ∧ simN2 ≥ idleN2 - 0.1 then 1
     else if engineStarter = 0 then 4
     else 3)
  else if state = 4 ∨ state = 14 then
    (if engineIgniter = 2 ∧ engineStarter = 1 then 3
     else if engineStarter = 0 ∧ simN2 < 0.05 ∧ egtFbw ≤ ambientTemp then 0
     else if engineStarter = 1 ∧ simN2 > 50 then 3
     else 4)
  else state

/-! ## EngineControl.h : per-engine tick (state machine + procedure dispatch)

`update` (EngineControl.h:1173-1256) runs, per engine, `engineStateMachine`
and then dispatches on `int(engineState)`: cases 2/3 run
`engineStartProcedure`, case 4 runs `engineShutdownProcedure` plus `updateFF`,
every other value (including all `+10` paused codes) runs the default path
`updatePrimaryParameters`, `updateFF`, `updateEGT`. -/

/-- Modelled from the spec: the calibration polynomials of `RegPolynomials.h`
(start/shutdown spool-up and EGT curves, corrected-EGT and corrected-fuel-flow
polynomials) together with the `delta2` pressure ratio, `sqrt` and the
`expFBW` exponential are not among the given sources; the spec calls them
calibration data, so the tick is parameterised over them. -/
structure Poly where
  startN2 : ℚ → ℚ → ℚ → ℚ
  startN1 : ℚ → ℚ → ℚ → ℚ
  startFF : ℚ → ℚ → ℚ → ℚ
  startEGT : ℚ → ℚ → ℚ → ℚ → ℚ
  shutdownEGT : ℚ → ℚ → ℚ → ℚ
  shutdownN1 : ℚ → ℚ → ℚ
  shutdownN2 : ℚ → ℚ → ℚ
  correctedEGT : ℚ → ℚ → ℚ → ℚ → ℚ
  correctedFuelFlow : ℚ → ℚ → ℚ → ℚ
  delta2 : ℚ → ℚ → ℚ
  sqrtFn : ℚ → ℚ
  expFn : ℚ → ℚ

/-- `theta` of the ratio helper class (common.h:11-14). -/
def theta (ambientTemp : ℚ) : ℚ :=
  (273.15 + ambientTemp) / 288.15

/-- `theta2` of the ratio helper class (common.h:21-24). -/
def theta2 (mach ambientTemp : ℚ) : ℚ :=
  theta ambientTemp * (1 + 0.2 * mach ^ 2)

/-- The per-engine simulation variables the tick reads and writes (state,
timer, the published N1/N2/EGT/FF and the fuel-used accumulator).  The oil
variables and the `StartCN2`/oil SimConnect side writes are omitted: no claim
mentions them. -/
structure EngineVars where
  state : ℤ
  timer : ℚ
  n1 : ℚ
  n2 : ℚ
  egt : ℚ
  ff : ℚ
  fuelUsed : ℚ
  deriving DecidableEq, Repr

/-- The per-tick inputs `update` gathers from the host before dispatching
(EngineControl.h:1182-1225), plus the engine index used by the imbalance
checks. -/
structure TickInput where
  engineIndex : ℤ
  engineIgniter : ℚ
  engineStarter : ℚ
  simN1 : ℚ
  simN2 : ℚ
  simCN1 : ℚ
  idleN1 : ℚ
  idleN2 : ℚ
  idleFF : ℚ
  idleEGT : ℚ
  mach : ℚ
  pressAltitude : ℚ
  ambientTemp : ℚ
  ambientPressure : ℚ
  simOnGround : ℚ
  imbalance : ℚ
  deltaTime : ℚ
  deltaTimeDiff : ℚ
  deriving DecidableEq, Repr

/-- `engineStartProcedure` (EngineControl.h:295-407), engine-generically: the
source duplicates the same logic for engine 1 and engine 2 over the
corresponding sim variables.  Before the 1.7 s valve delay it zeroes the
fuel-used accumulator on ground and accumulates the timer; after it, it spools
N2/N1/FF toward the (imbalance-corrected) idle values and, when called in
state 3, may blend the EGT and rewrite the state to 2. -/
def engineStartProcedure (p : Poly) (i : TickInput) (engineState : ℤ)
    (e : EngineVars) : EngineVars :=
  let engineImbalanced := imbalance_extractor i.imbalance 1
  let ffImb : ℚ :=
    if engineImbalanced = i.engineIndex then (imbalance_extractor i.imbalance 3 : ℚ) else 0
  let egtImb : ℚ :=
    if engineImbalanced = i.engineIndex then (imbalance_extractor i.imbalance 2 : ℚ) else 0
  let n2Imb : ℚ :=
    if engineImbalanced = i.engineIndex then (imbalance_extractor i.imbalance 4 : ℚ) / 100 else 0
  if e.timer < 1.7 then
    { e with
      fuelUsed := if i.simOnGround = 1 then 0 else e.fuelUsed,
      timer := e.timer + i.deltaTime }
  else
    let preN2 := e.n2
    let preEgt := e.egt
    let newN2 := p.startN2 i.simN2 preN2 (i.idleN2 - n2Imb)
    let startEgt := p.startEGT newN2 (i.idleN2 - n2Imb) i.ambientTemp (i.idleEGT - egtImb)
    let shutdownEgt := p.shutdownEGT preEgt i.ambientTemp i.deltaTime
    let e1 := { e with
      n2 := newN2,
      n1 := p.startN1 newN2 (i.idleN2 - n2Imb) i.idleN1,
      ff := p.startFF newN2 (i.idleN2 - n2Imb) (i.idleFF - ffImb) }
    if engineState = 3 then
      if |startEgt - preEgt| ≤ 1.5 then { e1 with egt := startEgt, state := 2 }
      else if startEgt > preEgt then
        { e1 with egt := preEgt + 0.75 * i.deltaTime * (i.idleN2 - newN2) }
      else { e1 with egt := shutdownEgt }
    else { e1 with egt := startEgt }

/-- `engineShutdownProcedure` (EngineControl.h:412-456), engine-generically:
before the 1.8 s threshold only the timer accumulates; after it N1/N2/EGT
decay (with the windmilling snap to the true N1). -/
def engineShutdownProcedure (p : Poly) (i : TickInput) (e : EngineVars) :
    EngineVars :=
  if e.timer < 1.8 then { e with timer := e.timer + i.deltaTime }
  else
    let newN1a := p.shutdownN1 e.n1 i.deltaTime
    let newN1 := if i.simN1 < 5 ∧ i.simN1 > newN1a then i.simN1 else newN1a
    { e with
      n1 := newN1,
      n2 := p.shutdownN2 e.n2 i.deltaTime,
      egt := p.shutdownEGT e.egt i.ambientTemp i.deltaTime }

/-- `updatePrimaryParameters` (EngineControl.h:461-478): N1 passes straight
through, N2 is offset by the engine's N2 imbalance. -/
def updatePrimaryParameters (i : TickInput) (e : EngineVars) : EngineVars :=
  let engineImbalanced := imbalance_extractor i.imbalance 1
  let paramImbalance : ℚ :=
    if engineImbalanced = i.engineIndex then (imbalance_extractor i.imbalance 4 : ℚ) / 100 else 0
  { e with n1 := i.simN1, n2 := i.simN2 - paramImbalance }

/-- `updateFF` (EngineControl.h:535-565): writes the fuel flow (zero below the
corrected-flow floor of 1) and returns the corrected fuel flow. -/
def updateFF (p : Poly) (i : TickInput) (e : EngineVars) : EngineVars × ℚ :=
  let engineImbalanced := imbalance_extractor i.imbalance 1
  let correctedFuelFlow := p.correctedFuelFlow i.simCN1 i.mach i.pressAltitude
  let paramImbalance : ℚ :=
    if engineImbalanced ≠ i.engineIndex ∨ correctedFuelFlow < 1 then 0
    else (imbalance_extractor i.imbalance 3 : ℚ)
  let outFlow : ℚ :=
    if correctedFuelFlow < 1 then 0
    else correctedFuelFlow * LBS_TO_KGS * p.delta2 i.mach i.ambientPressure *
        p.sqrtFn (theta2 i.mach i.ambientTemp) - paramImbalance
  ({ e with ff := outFlow }, correctedFuelFlow)

/-- `updateEGT` (EngineControl.h:484-529): on ground in state 0 the EGT is the
ambient temperature; otherwise it is blended toward the corrected-EGT target
with the factor `expFBW (-0.1 * deltaTime)`. -/
def updateEGT (p : Poly) (i : TickInput) (engineState : ℤ) (cFbwFF : ℚ)
    (e : EngineVars) : EngineVars :=
  let engineImbalanced := imbalance_extractor i.imbalance 1
  let paramImbalance : ℚ :=
    if engineImbalanced = i.engineIndex then (imbalance_extractor i.imbalance 2 : ℚ) else 0
  let correctedEGT := p.correctedEGT i.simCN1 cFbwFF i.mach i.pressAltitude
  if i.simOnGround = 1 ∧ engineState = 0 then { e with egt := i.ambientTemp }
  else
    let previous := e.egt
    let actual0 := correctedEGT * theta2 i.mach i.ambientTemp - paramImbalance
    { e with egt := actual0 + (previous - actual0) * p.expFn (-0.1 * i.deltaTime) }

/-- One engine's slice of `update` (EngineControl.h:1204-1245): run the state
machine, apply the timer reset, then dispatch on the written state. -/
def perEngineTick (p : Poly) (i : TickInput) (e : EngineVars) : EngineVars :=
  let m := engineStateMachine e.state i.engineIgniter i.engineStarter i.simN2
    i.idleN2 i.ambientTemp e.egt i.deltaTimeDiff
  let e1 : EngineVars :=
    { e with state := m.state, timer := if m.resetTimer then 0 else e.timer }
  if m.state = 2 ∨ m.state = 3 then engineStartProcedure p i m.state e1
  else if m.state = 4 then
    (updateFF p i (engineShutdownProcedure p i e1)).1
  else
    let e2 := updatePrimaryParameters i e1
    let r := updateFF p i e2
    updateEGT p i m.state r.2 r.1

/-! ## EngineControl.h : updateFuel -/

/-- The values `updateFuel` (EngineControl.h:718-959) reads at the top of the
call: sim variables, the previous-cycle quantities, the wall-clock readings of
the two pump debounce timers (`timerLeft.elapsed()` / `timerRight.elapsed()`,
in milliseconds), and the `simPaused` flag set by the state machine earlier in
the tick.  Tank quantities and capacities are in gallons, `Pre` values in lbs,
fuel flows in kg/h. -/
structure FuelInput where
  deltaTime : ℚ
  refuelRate : ℚ
  refuelStartedByUser : ℚ
  pumpStateLeft : ℚ
  pumpStateRight : ℚ
  engine1PreFF : ℚ
  engine2PreFF : ℚ
  engine1FF : ℚ
  engine2FF : ℚ
  fuelWeightGallon : ℚ
  fuelUsedLeft : ℚ
  fuelUsedRight : ℚ
  fuelLeftPre : ℚ
  fuelRightPre : ℚ
  fuelAuxLeftPre : ℚ
  fuelAuxRightPre : ℚ
  fuelCenterPre : ℚ
  tankLeftQuantity : ℚ
  tankRightQuantity : ℚ
  tankLeftAuxQuantity : ℚ
  tankRightAuxQuantity : ℚ
  tankCenterQuantity : ℚ
  tankLeftCapacity : ℚ
  tankRightCapacity : ℚ
  simPaused : Bool
  devState : ℚ
  elapsedLeft : ℚ
  elapsedRight : ℚ

/-- What `updateFuel` writes back: the pump states and the five
previous-cycle tank quantities (in lbs; for the main branch these equal the
published left/right/center quantities), plus the fuel-used accumulators. -/
structure FuelOutput where
  pumpStateLeft : ℚ
  pumpStateRight : ℚ
  fuelLeftPre : ℚ
  fuelRightPre : ℚ
  fuelAuxLeftPre : ℚ
  fuelAuxRightPre : ℚ
  fuelCenterPre : ℚ
  fuelUsedLeft : ℚ
  fuelUsedRight : ℚ
  deriving DecidableEq, Repr

/-- Threshold for the fuel-tamper heuristic (EngineControl.h:90), lbs/sec. -/
def FUEL_THRESHOLD : ℚ := 661

/-- The per-cycle fuel burn of one engine (EngineControl.h:848-850):
`m = (FF - preFF) / dt`, `b = preFF`, burn `= m*dt^2/2 + b*dt` in kg, with
`dt` already converted to hours. -/
def engineFuelBurn (ff preFF dtHours : ℚ) : ℚ :=
  (ff - preFF) / dtHours * dtHours ^ 2 / 2 + preFF * dtHours

/-- The pump-state block for one wing (EngineControl.h:770-787): result is the
pump state written back and the possibly-zeroed `fuelPre` local. -/
def pumpStateStep (pumpState elapsed fuelPre quantity : ℚ) : ℚ × ℚ :=
  if pumpState = 0 ∧ (elapsed = 0 ∨ elapsed ≥ 1000) then
    (if fuelPre - quantity > 0 ∧ quantity = 0 then (1, fuelPre)
     else if fuelPre = 0 ∧ quantity - fuelPre > 0 then (2, fuelPre)
     else (0, fuelPre))
  else if pumpState = 1 ∧ elapsed ≥ 2100 then (0, 0)
  else if pumpState = 2 ∧ elapsed ≥ 2700 then (0, fuelPre)
  else (pumpState, fuelPre)

/-- `updateFuel` (EngineControl.h:718-942): pump-state edge logic, tamper
detection, then either the freeze branch (paused/tamper), the refuel branch,
or the main burn-and-transfer branch with wing-overflow spill into the center
tank.  The configuration-checkpoint block at the end only performs file I/O
and is omitted. -/
def updateFuel (i : FuelInput) : FuelOutput :=
  let leftQuantity := i.tankLeftQuantity * i.fuelWeightGallon
  let rightQuantity := i.tankRightQuantity * i.fuelWeightGallon
  let leftAuxQuantity := i.tankLeftAuxQuantity * i.fuelWeightGallon
  let rightAuxQuantity := i.tankRightAuxQuantity * i.fuelWeightGallon
  let centerQuantity := i.tankCenterQuantity * i.fuelWeightGallon
  let fuelTotalActual := leftQuantity + rightQuantity + leftAuxQuantity +
    rightAuxQuantity + centerQuantity
  let fuelTotalPre := i.fuelLeftPre + i.fuelRightPre + i.fuelAuxLeftPre +
    i.fuelAuxRightPre + i.fuelCenterPre
  let deltaFuelRate := |fuelTotalActual - fuelTotalPre| /
    (i.fuelWeightGallon * i.deltaTime)
  let deltaTime := i.deltaTime / 3600
  let pumpLeft := pumpStateStep i.pumpStateLeft i.elapsedLeft i.fuelLeftPre leftQuantity
  let pumpRight := pumpStateStep i.pumpStateRight i.elapsedRight i.fuelRightPre rightQuantity
  let fuelLeftPre := pumpLeft.2
  let fuelRightPre := pumpRight.2
  let uiFuelTamper :=
    (i.refuelStartedByUser = 0 ∧ deltaFuelRate > FUEL_THRESHOLD) ∨
    (i.refuelStartedByUser = 1 ∧ deltaFuelRate > FUEL_THRESHOLD ∧ i.refuelRate < 2)
  if i.simPaused = true ∨ uiFuelTamper then
    { pumpStateLeft := pumpLeft.1, pumpStateRight := pumpRight.1,
      fuelLeftPre := fuelLeftPre, fuelRightPre := fuelRightPre,
      fuelAuxLeftPre := i.fuelAuxLeftPre, fuelAuxRightPre := i.fuelAuxRightPre,
      fuelCenterPre := i.fuelCenterPre,
      fuelUsedLeft := i.fuelUsedLeft, fuelUsedRight := i.fuelUsedRight }
  else if ¬uiFuelTamper ∧ i.refuelStartedByUser = 1 then
    { pumpStateLeft := pumpLeft.1, pumpStateRight := pumpRight.1,
      fuelLeftPre := leftQuantity, fuelRightPre := rightQuantity,
      fuelAuxLeftPre := leftAuxQuantity, fuelAuxRightPre := rightAuxQuantity,
      fuelCenterPre := centerQuantity,
      fuelUsedLeft := i.fuelUsedLeft, fuelUsedRight := i.fuelUsedRight }
  else
    let fuelBurn1 := if fuelLeftPre > 0 then engineFuelBurn i.engine1FF i.engine1PreFF deltaTime else 0
    let fuelUsedLeft := if fuelLeftPre > 0 then i.fuelUsedLeft + fuelBurn1 else i.fuelUsedLeft
    let xfrAuxLeft :=
      if fuelLeftPre > 0 ∧ i.fuelAuxLeftPre > leftAuxQuantity
      then i.fuelAuxLeftPre - leftAuxQuantity else 0
    let fuelLeftPre2 := if fuelLeftPre > 0 then fuelLeftPre else 0
    let fuelBurn2 := if fuelRightPre > 0 then engineFuelBurn i.engine2FF i.engine2PreFF deltaTime else 0
    let fuelUsedRight := if fuelRightPre > 0 then i.fuelUsedRight + fuelBurn2 else i.fuelUsedRight
    let xfrAuxRight :=
      if fuelRightPre > 0 ∧ i.fuelAuxRightPre > rightAuxQuantity
      then i.fuelAuxRightPre - rightAuxQuantity else 0
    let fuelRightPre2 := if fuelRightPre > 0 then fuelRightPre else 0
    let xfrCenter := if i.fuelCenterPre > centerQuantity then i.fuelCenterPre - centerQuantity else 0
    let fuelLeft := fuelLeftPre2 - fuelBurn1 * KGS_TO_LBS + xfrAuxLeft + xfrCenter / 2
    let fuelRight := fuelRightPre2 - fuelBurn2 * KGS_TO_LBS + xfrAuxRight + xfrCenter / 2
    let leftCapacity := i.tankLeftCapacity * i.fuelWeightGallon
    let rightCapacity := i.tankRightCapacity * i.fuelWeightGallon
    let overflow : ℚ × ℚ × ℚ :=
      if fuelLeft > leftCapacity ∧ fuelRight > rightCapacity then
        (leftCapacity, rightCapacity,
          centerQuantity + (fuelLeft - leftCapacity) + (fuelRight - rightCapacity))
      else if fuelRight > rightCapacity then
        (fuelLeft, rightCapacity, centerQuantity + fuelRight - rightCapacity)
      else if fuelLeft > leftCapacity then
        (leftCapacity, fuelRight, centerQuantity + fuelLeft - leftCapacity)
      else (fuelLeft, fuelRight, centerQuantity)
    { pumpStateLeft := pumpLeft.1, pumpStateRight := pumpRight.1,
      fuelLeftPre := overflow.1, fuelRightPre := overflow.2.1,
      fuelAuxLeftPre := leftAuxQuantity, fuelAuxRightPre := rightAuxQuantity,
      fuelCenterPre := overflow.2.2,
      fuelUsedLeft := fuelUsedLeft, fuelUsedRight := fuelUsedRight }

/-! ## EngineControl.h : updateThrustLimits -/

/-- The persistent FLEX/transition bookkeeping of `EngineControl`
(EngineControl.h:92-101). -/
structure ThrustState where
  isFlexActive : Bool
  isTransitionActive : Bool
  transitionStartTime : ℚ
  transitionFactor : ℚ
  prevThrustLimitType : ℚ
  prevFlexTemperature : ℚ
  deriving DecidableEq, Repr

/-- The inputs of one `updateThrustLimits` call (EngineControl.h:961-972):
the call parameters plus the sim variables read at the top. -/
structure ThrustInput where
  simulationTime : ℚ
  altitude : ℚ
  pressAltitude : ℚ
  ambientTemp : ℚ
  ambientPressure : ℚ
  mach : ℚ
  packs : ℚ
  nai : ℚ
  wai : ℚ
  idle : ℚ
  flexTemp : ℚ
  thrustLimitType : ℚ
  deriving DecidableEq, Repr

/-- The thrust limits written back plus the updated persistent state. -/
structure ThrustOutput where
  idle : ℚ
  toga : ℚ
  flex : ℚ
  clb : ℚ
  mct : ℚ
  state : ThrustState
  deriving DecidableEq, Repr

/-- `waitTime` (EngineControl.h:96). -/
def waitTime : ℚ := 10

/-- Signature of the missing `limitN1` of `ThrustLimits.h`: arguments are the
limit type (0 TO, 1 GA, 2 CLB, 3 MCT), altitude, ambient temperature, ambient
pressure, flex temperature, and the three bleed flags. -/
def LimitN1 : Type := ℕ → ℚ → ℚ → ℚ → ℚ → ℚ → ℚ → ℚ → ℚ

/-- The nominal CLB limit read by `updateThrustLimits` (EngineControl.h:989). -/
def clbLimit (L : LimitN1) (i : ThrustInput) : ℚ :=
  L 2 i.pressAltitude i.ambientTemp i.ambientPressure 0 i.packs i.nai i.wai

/-- The Mach-blended FLEX limit of `updateThrustLimits`
(EngineControl.h:985-995): TO/GA flex limits when `flexTemp > 0` (else 0),
blended by `machFactorLow`. -/
def flexBlend (L : LimitN1) (i : ThrustInput) : ℚ :=
  let flex_to := if i.flexTemp > 0 then
    L 0 (min 16600 i.pressAltitude) i.ambientTemp i.ambientPressure i.flexTemp i.packs i.nai i.wai
    else 0
  let flex_ga := if i.flexTemp > 0 then
    L 1 (min 16600 i.pressAltitude) i.ambientTemp i.ambientPressure i.flexTemp i.packs i.nai i.wai
    else 0
  let machFactorLow := max 0 (min 1 ((i.mach - 0.04) / 0.04))
  flex_to + (flex_ga - flex_to) * machFactorLow

/-- `updateThrustLimits` (EngineControl.h:961-1064): computes the TO/GA/CLB/
MCT limits (via the missing `limitN1`, kept abstract), maintains the
FLEX-active and CLB-transition bookkeeping, applies the timed FLEX-to-CLB
ramp, and blends MCT/TOGA at altitude. -/
def updateThrustLimits (L : LimitN1) (s : ThrustState) (i : ThrustInput) :
    ThrustOutput :=
  let toVal := L 0 (min 16600 i.pressAltitude) i.ambientTemp i.ambientPressure 0 i.packs i.nai i.wai
  let ga := L 1 (min 16600 i.pressAltitude) i.ambientTemp i.ambientPressure 0 i.packs i.nai i.wai
  let clb := clbLimit L i
  let mct := L 3 i.pressAltitude i.ambientTemp i.ambientPressure 0 i.packs i.nai i.wai
  let machFactorLow := max 0 (min 1 ((i.mach - 0.04) / 0.04))
  let toga := toVal + (ga - toVal) * machFactorLow
  let flex := flexBlend L i
  let fa1 : Bool :=
    if (s.prevThrustLimitType ≠ 3 ∧ i.thrustLimitType = 3) ∨
        (s.prevFlexTemperature = 0 ∧ i.flexTemp > 0) then true
    else if i.flexTemp = 0 ∨ i.thrustLimitType = 4 then false
    else s.isFlexActive
  let tr1 : Bool × ℚ × ℚ :=
    if fa1 = true ∧ s.isTransitionActive = false ∧ i.thrustLimitType = 1 then
      (true, i.simulationTime, 0.2)
    else if fa1 = false then (false, 0, 0)
    else (s.isTransitionActive, s.transitionStartTime, s.transitionFactor)
  let timeDifference := max 0 (i.simulationTime - tr1.2.1 - waitTime)
  let deltaThrust : ℚ :=
    if tr1.1 = true ∧ timeDifference > 0 ∧ clb > flex then
      min (clb - flex) (timeDifference * tr1.2.2)
    else 0
  let fa2 : Bool × Bool :=
    if tr1.1 = true ∧ flex + deltaThrust ≥ clb then (false, false)
    else (fa1, tr1.1)
  let clb1 := if fa2.1 = true then min clb flex + deltaThrust else clb
  let machFactor := max 0 (min 1 ((i.mach - 0.37) / 0.05))
  let altitudeFactorLow := max 0 (min 1 ((i.altitude - 16600) / 500))
  let altitudeFactorHigh := max 0 (min 1 ((i.altitude - 25000) / 500))
  let mt : ℚ × ℚ :=
    if i.altitude ≥ 25000 then
      let m := max clb1 (mct + (clb1 - mct) * altitudeFactorHigh)
      (m, m)
    else if mct > toga then
      let m := toga + (mct - toga) * min 1 (altitudeFactorLow + machFactor)
      (m, m)
    else (mct, toga + (mct - toga) * min 1 (altitudeFactorLow + machFactor))
  { idle := i.idle, toga := mt.2, flex := flex, clb := clb1, mct := mt.1,
    state :=
      { isFlexActive := fa2.1, isTransitionActive := fa2.2,
        transitionStartTime := tr1.2.1, transitionFactor := tr1.2.2,
        prevThrustLimitType := i.thrustLimitType,
        prevFlexTemperature := i.flexTemp } }

/-! ## AutopilotLaws.cpp / Autothrust.cpp : signal primitives -/

/-- The `localDW` of the Lag, Washout and Lead-Lag filters: previous input,
previous output and the two first-call latches. -/
structure FilterState where
  pY : ℚ
  pU : ℚ
  pY_not_empty : Bool
  pU_not_empty : Bool
  deriving DecidableEq, Repr

/-- A fresh (never stepped) filter state. -/
def FilterState.initial : FilterState :=
  { pY := 0, pU := 0, pY_not_empty := false, pU_not_empty := false }

/-- `AutopilotLaws_LagFilter` (AutopilotLaws.cpp:32-49): result is the output
`rty_Y` and the updated `localDW`. -/
def AutopilotLaws_LagFilter (U C1 dt : ℚ) (dw : FilterState) :
    ℚ × FilterState :=
  let dw1 :=
    if dw.pY_not_empty = false ∨ dw.pU_not_empty = false then
      { pY := U, pU := U, pY_not_empty := true, pU_not_empty := true }
    else dw
  let denom_tmp := dt * C1
  let ca := denom_tmp / (denom_tmp + 2)
  let y := (2 - denom_tmp) / (denom_tmp + 2) * dw1.pY + (U * ca + dw1.pU * ca)
  (y, { dw1 with pY := y, pU := U })

/-- `AutopilotLaws_WashoutFilter` (AutopilotLaws.cpp:333-350). -/
def AutopilotLaws_WashoutFilter (U C1 dt : ℚ) (dw : FilterState) :
    ℚ × FilterState :=
  let dw1 :=
    if dw.pY_not_empty = false ∨ dw.pU_not_empty = false then
      { pY := U, pU := U, pY_not_empty := true, pU_not_empty := true }
    else dw
  let denom_tmp := dt * C1
  let ca := 2 / (denom_tmp + 2)
  let y := (2 - denom_tmp) / (denom_tmp + 2) * dw1.pY + (U * ca - dw1.pU * ca)
  (y, { dw1 with pY := y, pU := U })

/-- `AutopilotLaws_LeadLagFilter` (AutopilotLaws.cpp:311-331). -/
def AutopilotLaws_LeadLagFilter (U C1 C2 C3 C4 dt : ℚ) (dw : FilterState) :
    ℚ × FilterState :=
  let dw1 :=
    if dw.pY_not_empty = false ∨ dw.pU_not_empty = false then
      { pY := U, pU := U, pY_not_empty := true, pU_not_empty := true }
    else dw
  let denom_tmp := dt * C4
  let denom := 2 * C3 + denom_tmp
  let tmp := dt * C2
  let y := (2 * C1 + tmp) / denom * U + (tmp - 2 * C1) / denom * dw1.pU +
    (2 * C3 - denom_tmp) / denom * dw1.pY
  (y, { dw1 with pY := y, pU := U })

/-- The `localDW` of the rate limiters: previous output and first-call latch. -/
structure RateLimiterState where
  pY : ℚ
  pY_not_empty : Bool
  deriving DecidableEq, Repr

/-- `AutopilotLaws_RateLimiter` (AutopilotLaws.cpp:51-61): the per-call delta
is clamped to `[-|lo|*Ts, |up|*Ts]` via `fmax`/`fmin`. -/
def AutopilotLaws_RateLimiter (u up lo Ts init : ℚ) (dw : RateLimiterState) :
    ℚ × RateLimiterState :=
  let p0 := if dw.pY_not_empty = false then init else dw.pY
  let p1 := p0 + max (min (u - p0) (|up| * Ts)) (-(|lo| * Ts))
  (p1, { pY := p1, pY_not_empty := true })

/-- `Autothrust_RateLimiter` (Autothrust.cpp:99-122): the same clamp written
with explicit comparisons. -/
def Autothrust_RateLimiter (u up lo Ts init : ℚ) (dw : RateLimiterState) :
    ℚ × RateLimiterState :=
  let p0 := if dw.pY_not_empty = false then init else dw.pY
  let u0 := u - p0
  let u1 := |up| * Ts
  let u1a := if u0 < u1 then u0 else u1
  let u0a := -(|lo| * Ts)
  let u0b := if u1a > u0a then u1a else u0a
  let p1 := p0 + u0b
  (p1, { pY := p1, pY_not_empty := true })

/-- The `localDW` of the two hysteretic selector charts: the activation latch
`is_active_c10`/`is_active_c15` and the mode (1 = any, 2 = locked left,
3 = locked right). -/
structure ChartState where
  is_active : ℕ
  mode : ℕ
  deriving DecidableEq, Repr

/-- `AutopilotLaws_Chart` (AutopilotLaws.cpp:132-206), boolean
`use_short_path` variant: picks the smaller-magnitude candidate, latching onto
one side while its magnitude stays in the commit band. -/
def AutopilotLaws_Chart (rtu_right rtu_left : ℚ) (use_short_path : Bool)
    (dw : ChartState) : ℚ × ChartState :=
  if dw.is_active = 0 then
    (if |rtu_left| < |rtu_right| then rtu_left else rtu_right,
      { is_active := 1, mode := 1 })
  else if dw.mode = 1 then
    if use_short_path = false ∧ |rtu_right| < |rtu_left| ∧ |rtu_right| ≥ 10 ∧
        |rtu_right| ≤ 20 then
      (rtu_right, { dw with mode := 3 })
    else if use_short_path = false ∧ |rtu_left| < |rtu_right| ∧ |rtu_left| ≥ 10 ∧
        |rtu_left| ≤ 20 then
      (rtu_left, { dw with mode := 2 })
    else if |rtu_left| < |rtu_right| then (rtu_left, dw)
    else (rtu_right, dw)
  else if dw.mode = 2 then
    if use_short_path = true ∨ |rtu_right| < 10 ∨ |rtu_left| < 10 then
      (if |rtu_left| < |rtu_right| then rtu_left else rtu_right,
        { dw with mode := 1 })
    else (rtu_left, dw)
  else
    if use_short_path = true ∨ |rtu_right| < 10 ∨ |rtu_left| < 10 then
      (if |rtu_left| < |rtu_right| then rtu_left else rtu_right,
        { dw with mode := 1 })
    else (rtu_right, dw)

/-- `AutopilotLaws_Chart_h` (AutopilotLaws.cpp:226-298): the same machine with
a real-valued `use_short_path` compared against 0. -/
def AutopilotLaws_Chart_h (rtu_right rtu_left use_short_path : ℚ)
    (dw : ChartState) : ℚ × ChartState :=
  if dw.is_active = 0 then
    (if |rtu_left| < |rtu_right| then rtu_left else rtu_right,
      { is_active := 1, mode := 1 })
  else if dw.mode = 1 then
    if use_short_path = 0 ∧ |rtu_right| < |rtu_left| ∧ |rtu_right| ≥ 10 ∧
        |rtu_right| ≤ 20 then
      (rtu_right, { dw with mode := 3 })
    else if use_short_path = 0 ∧ |rtu_left| < |rtu_right| ∧ |rtu_left| ≥ 10 ∧
        |rtu_left| ≤ 20 then
      (rtu_left, { dw with mode := 2 })
    else if |rtu_left| < |rtu_right| then (rtu_left, dw)
    else (rtu_right, dw)
  else if dw.mode = 2 then
    if use_short_path ≠ 0 ∨ |rtu_right| < 10 ∨ |rtu_left| < 10 then
      (if |rtu_left| < |rtu_right| then rtu_left else rtu_right,
        { dw with mode := 1 })
    else (rtu_left, dw)
  else
    if use_short_path ≠ 0 ∨ |rtu_right| < 10 ∨ |rtu_left| < 10 then
      (if |rtu_left| < |rtu_right| then rtu_left else rtu_right,
        { dw with mode := 1 })
    else (rtu_right, dw)

/-! ## fdr2csv/main.cpp : converter exit codes -/

/-- `INTERFACE_VERSION` of fdr2csv (main.cpp:15). -/
def INTERFACE_VERSION : ℕ := 24

/-- The environment one `fdr2csv` run sees: whether command-line parsing
throws, the flag values, and the file-system conditions the program checks in
order (main.cpp:17-141). -/
structure CliWorld where
  parseError : Bool
  printHelp : Bool
  inFileEmpty : Bool
  inFileExists : Bool
  outFileEmpty : Bool
  printGetFileInterfaceVersion : Bool
  streamGood : Bool
  fileFormatVersion : ℕ
  outFileOpens : Bool
  deriving DecidableEq, Repr

/-- The return value of `main` (main.cpp:17-141): the chain of early returns,
in source order.  The conversion loop itself cannot fail, so the fall-through
result is 0. -/
def fdr2csvMain (w : CliWorld) : ℤ :=
  if w.parseError = true then -1
  else if w.printHelp = true then 0
  else if w.inFileEmpty = true then 1
  else if w.inFileExists = false then 1
  else if w.outFileEmpty = true ∧ w.printGetFileInterfaceVersion = false then 1
  else if w.streamGood = false then 1
  else if w.printGetFileInterfaceVersion = true then 0
  else if ¬ INTERFACE_VERSION = w.fileFormatVersion then 1
  else if w.outFileOpens = false then 1
  else 0

/-- Modelled from the spec: the exit-code contract of the converter as the
amended claim words it — code 0 on success and on help or on
get-input-file-version, code 1 on file, missing-parameter and version errors,
code -1 (not 1) when command-line parsing throws. -/
def cliExitOk (w : CliWorld) : Prop :=
  w.parseError = false ∧
    (w.printHelp = true ∨
      (w.inFileEmpty = false ∧ w.inFileExists = true ∧ w.streamGood = true ∧
        (w.printGetFileInterfaceVersion = true ∨
          (w.outFileEmpty = false ∧ w.fileFormatVersion = INTERFACE_VERSION ∧
            w.outFileOpens = true))))

instance (w : CliWorld) : Decidable (cliExitOk w) := by
  unfold cliExitOk; infer_instance

/-! ## Concrete instances used by counterexamples and witnesses -/

/-- A trivial instantiation of the abstract calibration functions, used when a
counterexample does not depend on their values. -/
def polyZero : Poly :=
  { startN2 := fun _ _ _ => 0
    startN1 := fun _ _ _ => 0
    startFF := fun _ _ _ => 0
    startEGT := fun _ _ _ _ => 0
    shutdownEGT := fun _ _ _ => 0
    shutdownN1 := fun _ _ => 0
    shutdownN2 := fun _ _ => 0
    correctedEGT := fun _ _ _ _ => 0
    correctedFuelFlow := fun _ _ _ => 0
    delta2 := fun _ _ => 0
    sqrtFn := fun _ => 0
    expFn := fun _ => 1 }

/-- A tick of engine 1 on which the host reports a paused simulation
(`deltaTimeDiff = 0`) while real time still advances (`deltaTime = 1/10`). -/
def pausedTickInput : TickInput :=
  { engineIndex := 1
    engineIgniter := 0
    engineStarter := 1
    simN1 := 20
    simN2 := 25
    simCN1 := 20
    idleN1 := 19
    idleN2 := 58
    idleFF := 300
    idleEGT := 400
    mach := 0
    pressAltitude := 0
    ambientTemp := 15
    ambientPressure := 1013
    simOnGround := 0
    imbalance := 0
    deltaTime := 1/10
    deltaTimeDiff := 0 }

/-- The engine-1 variables before the paused tick: engine running with the
published N2 at 30. -/
def pausedEngineVars : EngineVars :=
  { state := 1, timer := 0, n1 := 20, n2 := 30, egt := 500, ff := 1000,
    fuelUsed := 50 }

/-- A genuine tick that moves engine 1 from OFF to STARTING: igniter in the
START position, starter on, N2 still low. -/
def coldStartTickInput : TickInput :=
  { engineIndex := 1
    engineIgniter := 2
    engineStarter := 1
    simN1 := 0
    simN2 := 5
    simCN1 := 0
    idleN1 := 19
    idleN2 := 58
    idleFF := 300
    idleEGT := 400
    mach := 0
    pressAltitude := 0
    ambientTemp := 15
    ambientPressure := 1013
    simOnGround := 0
    imbalance := 0
    deltaTime := 1/10
    deltaTimeDiff := 1 }

/-- Engine 1 sitting in OFF with its timer at 0. -/
def coldStartEngineVars : EngineVars :=
  { state := 0, timer := 0, n1 := 0, n2 := 0, egt := 15, ff := 0,
    fuelUsed := 0 }

/-- A run whose command line fails to parse, everything else healthy. -/
def parseFailWorld : CliWorld :=
  { parseError := true
    printHelp := false
    inFileEmpty := false
    inFileExists := true
    outFileEmpty := false
    printGetFileInterfaceVersion := false
    streamGood := true
    fileFormatVersion := 24
    outFileOpens := true }

/-- The tamper-detection rate computed at the top of `updateFuel`
(EngineControl.h:759), lbs per second. -/
def deltaFuelRate (i : FuelInput) : ℚ :=
  |i.tankLeftQuantity * i.fuelWeightGallon + i.tankRightQuantity * i.fuelWeightGallon +
      i.tankLeftAuxQuantity * i.fuelWeightGallon + i.tankRightAuxQuantity * i.fuelWeightGallon +
      i.tankCenterQuantity * i.fuelWeightGallon -
      (i.fuelLeftPre + i.fuelRightPre + i.fuelAuxLeftPre + i.fuelAuxRightPre +
        i.fuelCenterPre)| /
    (i.fuelWeightGallon * i.deltaTime)

/-- A healthy burn tick for the fuel model: both engines lit, no pause, no
refuel, quantities just below the previous cycle, no external fuel added. -/
def conservedFuelInput : FuelInput :=
  { deltaTime := 36
    refuelRate := 0
    refuelStartedByUser := 0
    pumpStateLeft := 0
    pumpStateRight := 0
    engine1PreFF := 100
    engine2PreFF := 200
    engine1FF := 100
    engine2FF := 200
    fuelWeightGallon := 1
    fuelUsedLeft := 0
    fuelUsedRight := 0
    fuelLeftPre := 1000
    fuelRightPre := 1000
    fuelAuxLeftPre := 500
    fuelAuxRightPre := 500
    fuelCenterPre := 200
    tankLeftQuantity := 990
    tankRightQuantity := 990
    tankLeftAuxQuantity := 500
    tankRightAuxQuantity := 500
    tankCenterQuantity := 200
    tankLeftCapacity := 2000
    tankRightCapacity := 2000
    simPaused := false
    devState := 0
    elapsedLeft := 500
    elapsedRight := 500 }

/-- A concrete `limitN1` table for the FLEX-transition scenarios: CLB 85,
MCT 88, TO/GA (with or without flex temperature) 90. -/
def flexCutLimitN1 : LimitN1 :=
  fun t _ _ _ _ _ _ _ => if t = 2 then 85 else if t = 3 then 88 else 90

/-- A `limitN1` table whose FLEX limit (80) lies below the nominal CLB (85),
so the ramp scenario applies. -/
def flexRampLimitN1 : LimitN1 :=
  fun t _ _ _ _ _ _ _ => if t = 2 then 85 else 80

/-- FLEX active, no transition running, previous tick had the FLEX limit
type (3) selected. -/
def flexCutState : ThrustState :=
  { isFlexActive := true
    isTransitionActive := false
    transitionStartTime := 0
    transitionFactor := 0
    prevThrustLimitType := 3
    prevFlexTemperature := 50 }

/-- The tick at which the thrust-limit type moves from FLEX to TOGA (4). -/
def flexCutInput : ThrustInput :=
  { simulationTime := 100
    altitude := 0
    pressAltitude := 0
    ambientTemp := 15
    ambientPressure := 1013
    mach := 0
    packs := 0
    nai := 0
    wai := 0
    idle := 20
    flexTemp := 50
    thrustLimitType := 4 }

/-- The tick at which the thrust-limit type moves from FLEX to CLB (1). -/
def flexRampInput : ThrustInput :=
  { simulationTime := 100
    altitude := 0
    pressAltitude := 0
    ambientTemp := 15
    ambientPressure := 1013
    mach := 0
    packs := 0
    nai := 0
    wai := 0
    idle := 20
    flexTemp := 50
    thrustLimitType := 1 }

/-! ## Theorems -/


/-- C4: the spec scenario claims that decoding the packed code
`0205043002150306` yields engine=2, egt=5, ff=4, n2=30, oilQty=2,
oilPressure=15, oilPressureIdle=3, oilTempMax=6 for parameters 1..8, i.e.
parameter `i` extracts the i-th two-digit field from the left.  The
`imbalance_extractor` of common.h runs its loop only `8 - parameter` times, so
parameter `i` in fact returns field `i+1` and parameter 8 returns 0 — the
whole decode is shifted one field: parameters 1..8 give 5, 4, 30, 2, 15, 3,
6, 0, and the packed engine field (2) is only reachable at parameter 0.  This
contradicts the packing order of `generateEngineImbalance`
(EngineControl.h:168-174) and every call site (parameter 1 is compared with
the engine index, parameter 8 is used as the oil temperature maximum), so the
code, not the spec, is wrong. -/
theorem c4_imbalance_extractor_shifted :
    imbalance_extractor scenarioImbalanceCode 1 = 5 ∧
    imbalance_extractor scenarioImbalanceCode 2 = 4 ∧
    imbalance_extractor scenarioImbalanceCode 3 = 30 ∧
    imbalance_extractor scenarioImbalanceCode 4 = 2 ∧
    imbalance_extractor scenarioImbalanceCode 5 = 15 ∧
    imbalance_extractor scenarioImbalanceCode 6 = 3 ∧
    imbalance_extractor scenarioImbalanceCode 7 = 6 ∧
    imbalance_extractor scenarioImbalanceCode 8 = 0 ∧
    imbalance_extractor scenarioImbalanceCode 0 = 2 := by
  refine ⟨?_, ?_, ?_, ?_, ?_, ?_, ?_, ?_, ?_⟩ <;>
    norm_num [imbalance_extractor, scenarioImbalanceCode, extractorLoop, cFmod,
      ratTrunc]

/-- C10: both hysteretic left/right selector charts always write one of their
two input candidates, in every machine state (including the uninitialised
first call), for all inputs and any value of the use-short-path override. -/
theorem c10_chart_output_is_candidate :
    ∀ (r l : ℚ) (b : Bool) (q : ℚ) (dw : ChartState),
      ((AutopilotLaws_Chart r l b dw).1 = l ∨ (AutopilotLaws_Chart r l b dw).1 = r) ∧
      ((AutopilotLaws_Chart_h r l q dw).1 = l ∨ (AutopilotLaws_Chart_h r l q dw).1 = r) := by
  intro r l b q dw
  constructor
  · unfold AutopilotLaws_Chart
    split_ifs <;> simp
  · unfold AutopilotLaws_Chart_h
    split_ifs <;> simp

/-- Helper: the clamp of both rate limiters moves the previous output by at
most `max |up| |lo| * Ts` when `0 ≤ Ts`. -/
theorem rateLimiterDelta_bound (d up lo Ts : ℚ) (hTs : 0 ≤ Ts) :
    |max (min d (|up| * Ts)) (-(|lo| * Ts))| ≤ max |up| |lo| * Ts := by
  have hup : |up| * Ts ≤ max |up| |lo| * Ts :=
    mul_le_mul_of_nonneg_right (le_max_left _ _) hTs
  have hlo : |lo| * Ts ≤ max |up| |lo| * Ts :=
    mul_le_mul_of_nonneg_right (le_max_right _ _) hTs
  have hnn : 0 ≤ max |up| |lo| * Ts :=
    mul_nonneg (le_trans (abs_nonneg up) (le_max_left _ _)) hTs
  rw [abs_le]
  constructor
  · exact le_trans (neg_le_neg hlo) (le_max_right _ _)
  · exact max_le (le_trans (min_le_right _ _) hup)
      (le_trans (neg_nonpos_of_nonneg (mul_nonneg (abs_nonneg lo) hTs)) hnn)

/-- Helper: the Autothrust rate limiter clamp, written with explicit
comparisons, equals the `fmax`/`fmin` clamp of the AutopilotLaws one. -/
theorem autothrust_clamp_eq (d up lo Ts : ℚ) :
    (if (if d < |up| * Ts then d else |up| * Ts) > -(|lo| * Ts)
      then (if d < |up| * Ts then d else |up| * Ts) else -(|lo| * Ts)) =
    max (min d (|up| * Ts)) (-(|lo| * Ts)) := by
  rcases lt_or_ge d (|up| * Ts) with h | h
  · simp only [if_pos h, min_eq_left h.le]
    rcases lt_or_ge (-(|lo| * Ts)) d with h2 | h2
    · rw [if_pos h2, max_eq_left h2.le]
    · rw [if_neg (by exact not_lt.mpr h2), max_eq_right h2]
  · simp only [if_neg (not_lt.mpr h), min_eq_right h]
    rcases lt_or_ge (-(|lo| * Ts)) (|up| * Ts) with h2 | h2
    · rw [if_pos h2, max_eq_left h2.le]
    · rw [if_neg (by exact not_lt.mpr h2), max_eq_right h2]

/-- C6: for both rate limiters, on any call after the first (previous-output
latch set), the output moves away from the previous output by at most
`max |up| |lo| * Ts`, for all inputs and all `Ts ≥ 0`. -/
theorem c6_rate_limiter_bound (u up lo Ts init : ℚ) (dw : RateLimiterState)
    (hTs : 0 ≤ Ts) (hinit : dw.pY_not_empty = true) :
    |(AutopilotLaws_RateLimiter u up lo Ts init dw).1 - dw.pY| ≤ max |up| |lo| * Ts ∧
    |(Autothrust_RateLimiter u up lo Ts init dw).1 - dw.pY| ≤ max |up| |lo| * Ts := by
  constructor
  · unfold AutopilotLaws_RateLimiter
    simp only [hinit, Bool.true_eq_false, if_false, add_sub_cancel_left]
    exact rateLimiterDelta_bound (u - dw.pY) up lo Ts hTs
  · unfold Autothrust_RateLimiter
    simp only [hinit, Bool.true_eq_false, if_false, add_sub_cancel_left]
    rw [autothrust_clamp_eq]
    exact rateLimiterDelta_bound (u - dw.pY) up lo Ts hTs

/-- C6 witness: the bound instantiated at `u = 7`, `up = 2`, `lo = 1`,
`Ts = 1/2`, previous output 0. -/
theorem c6_rate_limiter_bound_witness :
    |(AutopilotLaws_RateLimiter 7 2 1 (1/2) 0
        { pY := 0, pY_not_empty := true }).1 - 0| ≤ max (abs (2 : ℚ)) (abs (1 : ℚ)) * (1/2) ∧
    |(Autothrust_RateLimiter 7 2 1 (1/2) 0
        { pY := 0, pY_not_empty := true }).1 - 0| ≤ max (abs (2 : ℚ)) (abs (1 : ℚ)) * (1/2) :=
  c6_rate_limiter_bound 7 2 1 (1/2) 0 { pY := 0, pY_not_empty := true }
    (by norm_num) rfl

/-- C5 counterexample: the claim says every filter's first `step` call returns
its input; the Washout filter's first call with `u0 = 1`, `C1 = 1`, `dt = 2`
returns 0, not 1. -/
theorem c5_counterexample :
    (AutopilotLaws_WashoutFilter 1 1 2 FilterState.initial).1 = 0 ∧ (0 : ℚ) ≠ 1 := by
  constructor
  · norm_num [AutopilotLaws_WashoutFilter, FilterState.initial]
  · norm_num

/-- C5 (amended): on the first `step` call (both latches clear) the Lag filter
does return its input `u0` (whenever `dt*C1 + 2` is nonzero); the Washout
filter returns `((2 - dt*C1)/(dt*C1 + 2)) * u0`, which equals `u0` iff
`dt*C1 = 0` or `u0 = 0`; the Lead-Lag filter returns
`((2*dt*C2 + 2*C3 - dt*C4)/(2*C3 + dt*C4)) * u0`, which equals `u0` iff
`dt*(C2 - C4) = 0` or `u0 = 0`. -/
theorem c5_filter_first_step (u C1 C2 C3 C4 dt : ℚ) :
    (dt * C1 + 2 ≠ 0 → (AutopilotLaws_LagFilter u C1 dt FilterState.initial).1 = u) ∧
    (dt * C1 + 2 ≠ 0 →
      ((AutopilotLaws_WashoutFilter u C1 dt FilterState.initial).1 = u ↔
        dt * C1 = 0 ∨ u = 0)) ∧
    (2 * C3 + dt * C4 ≠ 0 →
      ((AutopilotLaws_LeadLagFilter u C1 C2 C3 C4 dt FilterState.initial).1 = u ↔
        dt * (C2 - C4) = 0 ∨ u = 0)) := by
  have elag : (AutopilotLaws_LagFilter u C1 dt FilterState.initial).1 =
      (2 - dt * C1) / (dt * C1 + 2) * u +
        (u * (dt * C1 / (dt * C1 + 2)) + u * (dt * C1 / (dt * C1 + 2))) := by
    simp [AutopilotLaws_LagFilter, FilterState.initial]
  have ewash : (AutopilotLaws_WashoutFilter u C1 dt FilterState.initial).1 =
      (2 - dt * C1) / (dt * C1 + 2) * u +
        (u * (2 / (dt * C1 + 2)) - u * (2 / (dt * C1 + 2))) := by
    simp [AutopilotLaws_WashoutFilter, FilterState.initial]
  have elead : (AutopilotLaws_LeadLagFilter u C1 C2 C3 C4 dt FilterState.initial).1 =
      (2 * C1 + dt * C2) / (2 * C3 + dt * C4) * u +
        (dt * C2 - 2 * C1) / (2 * C3 + dt * C4) * u +
        (2 * C3 - dt * C4) / (2 * C3 + dt * C4) * u := by
    simp [AutopilotLaws_LeadLagFilter, FilterState.initial]
  refine ⟨fun h => ?_, fun h => ?_, fun h => ?_⟩
  · rw [elag]
    field_simp
    ring
  · have hw : (AutopilotLaws_WashoutFilter u C1 dt FilterState.initial).1 =
        (2 - dt * C1) / (dt * C1 + 2) * u := by rw [ewash]; ring
    rw [hw, div_mul_eq_mul_div, div_eq_iff h]
    constructor
    · intro he
      have h2 : dt * C1 * u = 0 := by linear_combination (-1/2 : ℚ) * he
      rcases mul_eq_zero.mp h2 with h3 | h3
      · exact Or.inl h3
      · exact Or.inr h3
    · intro he
      rcases he with he | he
      · linear_combination (-2 * u : ℚ) * he
      · linear_combination ((2 - dt * C1) - (dt * C1 + 2)) * he
  · have hl : (AutopilotLaws_LeadLagFilter u C1 C2 C3 C4 dt FilterState.initial).1 =
        (2 * dt * C2 + 2 * C3 - dt * C4) / (2 * C3 + dt * C4) * u := by
      rw [elead]; field_simp; ring
    rw [hl, div_mul_eq_mul_div, div_eq_iff h]
    constructor
    · intro he
      have h2 : dt * (C2 - C4) * u = 0 := by linear_combination (1/2 : ℚ) * he
      rcases mul_eq_zero.mp h2 with h3 | h3
      · exact Or.inl h3
      · exact Or.inr h3
    · intro he
      rcases he with he | he
      · linear_combination (2 * u : ℚ) * he
      · linear_combination ((2 * dt * C2 + 2 * C3 - dt * C4) - (2 * C3 + dt * C4)) * he

/-- C5 witness: the amended statement at `u0 = 3`, `C1 = C3 = 1`,
`C2 = 2`, `C4 = 0`, `dt = 1`. -/
theorem c5_filter_first_step_witness :
    (AutopilotLaws_LagFilter 3 1 1 FilterState.initial).1 = 3 ∧
    ¬ (AutopilotLaws_WashoutFilter 3 1 1 FilterState.initial).1 = 3 ∧
    ¬ (AutopilotLaws_LeadLagFilter 3 1 2 1 0 1 FilterState.initial).1 = 3 := by
  obtain ⟨h1, h2, h3⟩ := c5_filter_first_step 3 1 2 1 0 1
  refine ⟨h1 (by norm_num), fun hc => ?_, fun hc => ?_⟩
  · have := (h2 (by norm_num)).mp hc
    norm_num at this
  · have := (h3 (by norm_num)).mp hc
    norm_num at this

/-- C9 counterexample: the claim says every command-line parse failure exits
with code 1; `main` returns -1 from the parse `catch` block (main.cpp:40-43). -/
theorem c9_counterexample :
    fdr2csvMain parseFailWorld = -1 ∧ (-1 : ℤ) ≠ 1 := by
  constructor
  · rfl
  · decide

/-- C9 (amended): the converter returns 0 exactly on success and on `--help`
or `-g` (per `cliExitOk`), returns -1 exactly when command-line parsing
throws, and returns 1 exactly on the remaining file, missing-parameter and
version errors — in particular a writer/reader version mismatch yields 1, but
a parse failure yields -1, not 1. -/
theorem c9_exit_codes (w : CliWorld) :
    (fdr2csvMain w = 0 ↔ cliExitOk w) ∧
    (fdr2csvMain w = -1 ↔ w.parseError = true) ∧
    (fdr2csvMain w = 1 ↔ w.parseError = false ∧ ¬ cliExitOk w) := by
  unfold fdr2csvMain cliExitOk
  split_ifs with h1 h2 h3 h4 h5 h6 h7 h8 h9 <;>
    simp_all [INTERFACE_VERSION] <;>
    omega

/-- C1 counterexample: from OFF with igniter=START, starter on and N2 already
at the idle threshold (N2 = 60, idleN2 = 58), the claimed one-step table says
the tick ends in STARTING (2); `engineStateMachine` ends it in ON (1), because
the OFF block's result immediately feeds the sequentially-evaluated
STARTING block in the same call. -/
theorem c1_counterexample :
    (engineStateMachine 0 2 1 60 58 15 400 1).state = 1 ∧
    specStateStep 0 2 1 60 58 15 400 = 2 ∧ (1 : ℤ) ≠ 2 := by
  refine ⟨?_, ?_, by decide⟩ <;>
    norm_num [engineStateMachine, specStateStep, offBlock, onBlock,
      startingBlock, restartingBlock, shuttingBlock]

/-- C1 (amended): on every non-paused tick from a valid state, each per-state
rule matches the documented table, but the blocks are evaluated sequentially
on the updated state, so the state written at the end of the tick is either
the one-step successor of the claimed table or the table applied twice
(the possible chains being OFF to STARTING to ON, OFF or STARTING or
RESTARTING to SHUTTING to OFF, and ON to SHUTTING to OFF). -/
theorem c1_state_machine_cascade (s : ℤ) (ig st n2 idle amb egt d : ℚ)
    (hs : validEngineState s) (hd : d ≠ 0) :
    (engineStateMachine s ig st n2 idle amb egt d).state =
      specStateStep s ig st n2 idle amb egt ∨
    (engineStateMachine s ig st n2 idle amb egt d).state =
      specStateStep (specStateStep s ig st n2 idle amb egt) ig st n2 idle amb egt := by
  have hd' : ¬ d = 0 := hd
  rcases hs with h | h | h | h | h | h | h | h | h | h <;> subst h
  · -- state 0
    by_cases hA : ig = 1 ∧ st = 1 ∧ n2 > 20
    · obtain ⟨h1, h2, h3⟩ := hA
      subst h1; subst h2
      left
      simp [engineStateMachine, specStateStep, offBlock, onBlock,
        startingBlock, restartingBlock, shuttingBlock, hd', h3]
    · by_cases hB : ig = 2 ∧ st = 1
      · obtain ⟨h1, h2⟩ := hB
        subst h1; subst h2
        rcases le_or_lt (idle - 0.1) n2 with hC | hC
        · right
          simp [engineStateMachine, specStateStep, offBlock, onBlock,
            startingBlock, restartingBlock, shuttingBlock, hd', hC]
        · left
          simp [engineStateMachine, specStateStep, offBlock, onBlock,
            startingBlock, restartingBlock, shuttingBlock, hd', not_le.mpr hC]
      · left
        simp [engineStateMachine, specStateStep, offBlock, onBlock,
          startingBlock, restartingBlock, shuttingBlock, hd', hA, hB]
  · -- state 1
    by_cases hS : st = 1
    · subst hS
      left
      simp [engineStateMachine, specStateStep, offBlock, onBlock,
        startingBlock, restartingBlock, shuttingBlock, hd']
    · by_cases hD : st = 0
      · subst hD
        rcases lt_or_le n2 0.05 with h1 | h1
        · rcases le_or_lt egt amb with h2 | h2
          · right
            simp [engineStateMachine, specStateStep, offBlock, onBlock,
              startingBlock, restartingBlock, shuttingBlock, hd', hS, h1, h2]
          · left
            simp [engineStateMachine, specStateStep, offBlock, onBlock,
              startingBlock, restartingBlock, shuttingBlock, hd', hS, h1,
              not_le.mpr h2]
        · left
          simp [engineStateMachine, specStateStep, offBlock, onBlock,
            startingBlock, restartingBlock, shuttingBlock, hd', hS,
            not_lt.mpr h1]
      · left
        simp [engineStateMachine, specStateStep, offBlock, onBlock,
          startingBlock, restartingBlock, shuttingBlock, hd', hS, hD]
  · -- state 2
    by_cases hS : st = 1
    · subst hS
      rcases le_or_lt (idle - 0.1) n2 with hC | hC
      · left
        simp [engineStateMachine, specStateStep, offBlock, onBlock,
          startingBlock, restartingBlock, shuttingBlock, hd', hC]
      · left
        simp [engineStateMachine, specStateStep, offBlock, onBlock,
          startingBlock, restartingBlock, shuttingBlock, hd', not_le.mpr hC]
    · by_cases hD : st = 0
      · subst hD
        rcases lt_or_le n2 0.05 with h1 | h1
        · rcases le_or_lt egt amb with h2 | h2
          · right
            simp [engineStateMachine, specStateStep, offBlock, onBlock,
              startingBlock, restartingBlock, shuttingBlock, hd', h1, h2]
          · left
            simp [engineStateMachine, specStateStep, offBlock, onBlock,
              startingBlock, restartingBlock, shuttingBlock, hd', h1,
              not_le.mpr h2]
        · left
          simp [engineStateMachine, specStateStep, offBlock, onBlock,
            startingBlock, restartingBlock, shuttingBlock, hd',
            not_lt.mpr h1]
      · left
        simp [engineStateMachine, specStateStep, offBlock, onBlock,
          startingBlock, restartingBlock, shuttingBlock, hd', hS, hD]
  · -- state 3
    by_cases hS : st = 1
    · subst hS
      rcases le_or_lt (idle - 0.1) n2 with hC | hC
      · left
        simp [engineStateMachine, specStateStep, offBlock, onBlock,
          startingBlock, restartingBlock, shuttingBlock, hd', hC]
      · left
        simp [engineStateMachine, specStateStep, offBlock, onBlock,
          startingBlock, restartingBlock, shuttingBlock, hd', not_le.mpr hC]
    · by_cases hD : st = 0
      · subst hD
        rcases lt_or_le n2 0.05 with h1 | h1
        · rcases le_or_lt egt amb with h2 | h2
          · right
            simp [engineStateMachine, specStateStep, offBlock, onBlock,
              startingBlock, restartingBlock, shuttingBlock, hd', h1, h2]
          · left
            simp [engineStateMachine, specStateStep, offBlock, onBlock,
              startingBlock, restartingBlock, shuttingBlock, hd', h1,
              not_le.mpr h2]
        · left
          simp [engineStateMachine, specStateStep, offBlock, onBlock,
            startingBlock, restartingBlock, shuttingBlock, hd',
            not_lt.mpr h1]
      · left
        simp [engineStateMachine, specStateStep, offBlock, onBlock,
          startingBlock, restartingBlock, shuttingBlock, hd', hS, hD]
  · -- state 4
    by_cases hI : ig = 2 ∧ st = 1
    · obtain ⟨h1, h2⟩ := hI
      subst h1; subst h2
      left
      simp [engineStateMachine, specStateStep, offBlock, onBlock,
        startingBlock, restartingBlock, shuttingBlock, hd']
    · by_cases hD : st = 0
      · subst hD
        rcases lt_or_le n2 0.05 with h1 | h1
        · rcases le_or_lt egt amb with h2 | h2
          · left
            simp [engineStateMachine, specStateStep, offBlock, onBlock,
              startingBlock, restartingBlock, shuttingBlock, hd', hI, h1, h2]
          · left
            simp [engineStateMachine, specStateStep, offBlock, onBlock,
              startingBlock, restartingBlock, shuttingBlock, hd', hI, h1,
              not_le.mpr h2]
        · left
          simp [engineStateMachine, specStateStep, offBlock, onBlock,
            startingBlock, restartingBlock, shuttingBlock, hd', hI,
            not_lt.mpr h1]
      · by_cases hS : st = 1
        · subst hS
          have hI2 : ¬ ig = 2 := fun hig => hI ⟨hig, rfl⟩
          rcases lt_or_le 50 n2 with h1 | h1
          · left
            simp [engineStateMachine, specStateStep, offBlock, onBlock,
              startingBlock, restartingBlock, shuttingBlock, hd', hI2, hD, h1]
          · left
            simp [engineStateMachine, specStateStep, offBlock, onBlock,
              startingBlock, restartingBlock, shuttingBlock, hd', hI2, hD,
              not_lt.mpr h1]
        · left
          simp [engineStateMachine, specStateStep, offBlock, onBlock,
            startingBlock, restartingBlock, shuttingBlock, hd', hI, hD, hS]
  · -- state 10
    by_cases hA : ig = 1 ∧ st = 1 ∧ n2 > 20
    · obtain ⟨h1, h2, h3⟩ := hA
      subst h1; subst h2
      left
      simp [engineStateMachine, specStateStep, offBlock, onBlock,
        startingBlock, restartingBlock, shuttingBlock, hd', h3]
    · by_cases hB : ig = 2 ∧ st = 1
      · obtain ⟨h1, h2⟩ := hB
        subst h1; subst h2
        rcases le_or_lt (idle - 0.1) n2 with hC | hC
        · right
          simp [engineStateMachine, specStateStep, offBlock, onBlock,
            startingBlock, restartingBlock, shuttingBlock, hd', hC]
        · left
          simp [engineStateMachine, specStateStep, offBlock, onBlock,
            startingBlock, restartingBlock, shuttingBlock, hd', not_le.mpr hC]
      · left
        simp [engineStateMachine, specStateStep, offBlock, onBlock,
          startingBlock, restartingBlock, shuttingBlock, hd', hA, hB]
  · -- state 11
    by_cases hS : st = 1
    · subst hS
      left
      simp [engineStateMachine, specStateStep, offBlock, onBlock,
        startingBlock, restartingBlock, shuttingBlock, hd']
    · by_cases hD : st = 0
      · subst hD
        rcases lt_or_le n2 0.05 with h1 | h1
        · rcases le_or_lt egt amb with h2 | h2
          · right
            simp [engineStateMachine, specStateStep, offBlock, onBlock,
              startingBlock, restartingBlock, shuttingBlock, hd', hS, h1, h2]
          · left
            simp [engineStateMachine, specStateStep, offBlock, onBlock,
              startingBlock, restartingBlock, shuttingBlock, hd', hS, h1,
              not_le.mpr h2]
        · left
          simp [engineStateMachine, specStateStep, offBlock, onBlock,
            startingBlock, restartingBlock, shuttingBlock, hd', hS,
            not_lt.mpr h1]
      · left
        simp [engineStateMachine, specStateStep, offBlock, onBlock,
          startingBlock, restartingBlock, shuttingBlock, hd', hS, hD]
  · -- state 12
    by_cases hS : st = 1
    · subst hS
      rcases le_or_lt (idle - 0.1) n2 with hC | hC
      · left
        simp [engineStateMachine, specStateStep, offBlock, onBlock,
          startingBlock, restartingBlock, shuttingBlock, hd', hC]
      · left
        simp [engineStateMachine, specStateStep, offBlock, onBlock,
          startingBlock, restartingBlock, shuttingBlock, hd', not_le.mpr hC]
    · by_cases hD : st = 0
      · subst hD
        rcases lt_or_le n2 0.05 with h1 | h1
        · rcases le_or_lt egt amb with h2 | h2
          · right
            simp [engineStateMachine, specStateStep, offBlock, onBlock,
              startingBlock, restartingBlock, shuttingBlock, hd', h1, h2]
          · left
            simp [engineStateMachine, specStateStep, offBlock, onBlock,
              startingBlock, restartingBlock, shuttingBlock, hd', h1,
              not_le.mpr h2]
        · left
          simp [engineStateMachine, specStateStep, offBlock, onBlock,
            startingBlock, restartingBlock, shuttingBlock, hd',
            not_lt.mpr h1]
      · left
        simp [engineStateMachine, specStateStep, offBlock, onBlock,
          startingBlock, restartingBlock, shuttingBlock, hd', hS, hD]
  · -- state 13
    by_cases hS : st = 1
    · subst hS
      rcases le_or_lt (idle - 0.1) n2 with hC | hC
      · left
        simp [engineStateMachine, specStateStep, offBlock, onBlock,
          startingBlock, restartingBlock, shuttingBlock, hd', hC]
      · left
        simp [engineStateMachine, specStateStep, offBlock, onBlock,
          startingBlock, restartingBlock, shuttingBlock, hd', not_le.mpr hC]
    · by_cases hD : st = 0
      · subst hD
        rcases lt_or_le n2 0.05 with h1 | h1
        · rcases le_or_lt egt amb with h2 | h2
          · right
            simp [engineStateMachine, specStateStep, offBlock, onBlock,
              startingBlock, restartingBlock, shuttingBlock, hd', h1, h2]
          · left
            simp [engineStateMachine, specStateStep, offBlock, onBlock,
              startingBlock, restartingBlock, shuttingBlock, hd', h1,
              not_le.mpr h2]
        · left
          simp [engineStateMachine, specStateStep, offBlock, onBlock,
            startingBlock, restartingBlock, shuttingBlock, hd',
            not_lt.mpr h1]
      · left
        simp [engineStateMachine, specStateStep, offBlock, onBlock,
          startingBlock, restartingBlock, shuttingBlock, hd', hS, hD]
  · -- state 14
    by_cases hI : ig = 2 ∧ st = 1
    · obtain ⟨h1, h2⟩ := hI
      subst h1; subst h2
      left
      simp [engineStateMachine, specStateStep, offBlock, onBlock,
        startingBlock, restartingBlock, shuttingBlock, hd']
    · by_cases hD : st = 0
      · subst hD
        rcases lt_or_le n2 0.05 with h1 | h1
        · rcases le_or_lt egt amb with h2 | h2
          · left
            simp [engineStateMachine, specStateStep, offBlock, onBlock,
              startingBlock, restartingBlock, shuttingBlock, hd', hI, h1, h2]
          · left
            simp [engineStateMachine, specStateStep, offBlock, onBlock,
              startingBlock, restartingBlock, shuttingBlock, hd', hI, h1,
              not_le.mpr h2]
        · left
          simp [engineStateMachine, specStateStep, offBlock, onBlock,
            startingBlock, restartingBlock, shuttingBlock, hd', hI,
            not_lt.mpr h1]
      · by_cases hS : st = 1
        · subst hS
          have hI2 : ¬ ig = 2 := fun hig => hI ⟨hig, rfl⟩
          rcases lt_or_le 50 n2 with h1 | h1
          · left
            simp [engineStateMachine, specStateStep, offBlock, onBlock,
              startingBlock, restartingBlock, shuttingBlock, hd', hI2, hD, h1]
          · left
            simp [engineStateMachine, specStateStep, offBlock, onBlock,
              startingBlock, restartingBlock, shuttingBlock, hd', hI2, hD,
              not_lt.mpr h1]
        · left
          simp [engineStateMachine, specStateStep, offBlock, onBlock,
            startingBlock, restartingBlock, shuttingBlock, hd', hI, hD, hS]

/-- C1 witness: the amended statement at the cold-start cascade input. -/
theorem c1_state_machine_cascade_witness :
    (engineStateMachine 0 2 1 60 58 15 400 1).state =
      specStateStep 0 2 1 60 58 15 400 ∨
    (engineStateMachine 0 2 1 60 58 15 400 1).state =
      specStateStep (specStateStep 0 2 1 60 58 15 400) 2 1 60 58 15 400 :=
  c1_state_machine_cascade 0 2 1 60 58 15 400 1 (by norm_num [validEngineState])
    (by norm_num)

/-- C2 (amended): on a tick with `deltaTimeDiff = 0` the state machine writes
the `+10` paused variant (unchanged when already `>= 10`), performs no base
transition and no timer reset — but the tick does NOT freeze the outputs: the
paused state codes fall into the dispatch switch's default branch, which
rewrites N1 from the sensor, N2 from the sensor minus the imbalance offset,
and re-blends the EGT.  Only the fuel model is frozen via `simPaused`. -/
theorem c2_paused_tick (p : Poly) (i : TickInput) (e : EngineVars)
    (hdt : i.deltaTimeDiff = 0) (hs : validEngineState e.state) :
    (perEngineTick p i e).state = (if e.state < 10 then e.state + 10 else e.state) ∧
    (perEngineTick p i e).timer = e.timer ∧
    (perEngineTick p i e).n1 = i.simN1 ∧
    (perEngineTick p i e).n2 = i.simN2 -
      (if imbalance_extractor i.imbalance 1 = i.engineIndex
        then (imbalance_extractor i.imbalance 4 : ℚ) / 100 else 0) := by
  rcases hs with h | h | h | h | h | h | h | h | h | h <;>
    simp [perEngineTick, engineStateMachine, updatePrimaryParameters, updateFF,
      updateEGT, hdt, h]

/-- C2 counterexample: on a paused tick (`deltaTimeDiff = 0`) with the sim N2
at 25 and the previously published N2 at 30, the tick rewrites the N2 output
to 25 — the claim that a paused tick "does not advance N1/N2/EGT" is false. -/
theorem c2_counterexample :
    pausedTickInput.deltaTimeDiff = 0 ∧
    (perEngineTick polyZero pausedTickInput pausedEngineVars).n2 ≠
      pausedEngineVars.n2 := by
  constructor
  · rfl
  · norm_num [perEngineTick, engineStateMachine, updatePrimaryParameters,
      updateFF, updateEGT, polyZero, pausedTickInput, pausedEngineVars,
      imbalance_extractor, extractorLoop, cFmod, ratTrunc]


/-- Helper: one start-procedure call leaves the timer alone or adds
`deltaTime` to it. -/
theorem engineStartProcedure_timer (p : Poly) (i : TickInput) (es : ℤ)
    (e : EngineVars) :
    (engineStartProcedure p i es e).timer = e.timer ∨
    (engineStartProcedure p i es e).timer = e.timer + i.deltaTime := by
  unfold engineStartProcedure
  split_ifs <;> simp [apply_ite EngineVars.timer]

/-- Helper: one shutdown-procedure call leaves the timer alone or adds
`deltaTime` to it. -/
theorem engineShutdownProcedure_timer (p : Poly) (i : TickInput)
    (e : EngineVars) :
    (engineShutdownProcedure p i e).timer = e.timer ∨
    (engineShutdownProcedure p i e).timer = e.timer + i.deltaTime := by
  unfold engineShutdownProcedure
  split_ifs <;> simp

/-- Helper: `updateFF` does not touch the timer. -/
theorem updateFF_timer (p : Poly) (i : TickInput) (e : EngineVars) :
    ((updateFF p i e).1).timer = e.timer := rfl

/-- Helper: `updateEGT` does not touch the timer. -/
theorem updateEGT_timer (p : Poly) (i : TickInput) (es : ℤ) (c : ℚ)
    (e : EngineVars) :
    (updateEGT p i es c e).timer = e.timer := by
  unfold updateEGT
  split_ifs <;> rfl

/-- Helper: `updatePrimaryParameters` does not touch the timer. -/
theorem updatePrimaryParameters_timer (i : TickInput) (e : EngineVars) :
    (updatePrimaryParameters i e).timer = e.timer := rfl

/-- Helper: whatever the dispatched state is, the procedure part of the tick
either keeps the (possibly reset) timer or adds one `deltaTime` to it. -/
theorem tick_dispatch_timer (p : Poly) (i : TickInput) (st0 : ℤ)
    (e1 : EngineVars) :
    ((if st0 = 2 ∨ st0 = 3 then engineStartProcedure p i st0 e1
      else if st0 = 4 then (updateFF p i (engineShutdownProcedure p i e1)).1
      else updateEGT p i st0 (updateFF p i (updatePrimaryParameters i e1)).2
        ((updateFF p i (updatePrimaryParameters i e1)).1)).timer = e1.timer) ∨
    ((if st0 = 2 ∨ st0 = 3 then engineStartProcedure p i st0 e1
      else if st0 = 4 then (updateFF p i (engineShutdownProcedure p i e1)).1
      else updateEGT p i st0 (updateFF p i (updatePrimaryParameters i e1)).2
        ((updateFF p i (updatePrimaryParameters i e1)).1)).timer =
      e1.timer + i.deltaTime) := by
  split_ifs with h1 h2
  · exact engineStartProcedure_timer p i st0 e1
  · rw [updateFF_timer]
    exact engineShutdownProcedure_timer p i e1
  · rw [updateEGT_timer, updateFF_timer, updatePrimaryParameters_timer]
    left
    rfl

/-- Helper: the end-of-tick timer is the post-machine timer (0 on reset, the
old value otherwise), possibly advanced by one `deltaTime`. -/
theorem perEngineTick_timer (p : Poly) (i : TickInput) (e : EngineVars) :
    (perEngineTick p i e).timer =
      (if (engineStateMachine e.state i.engineIgniter i.engineStarter i.simN2
          i.idleN2 i.ambientTemp e.egt i.deltaTimeDiff).resetTimer then 0
        else e.timer) ∨
    (perEngineTick p i e).timer =
      (if (engineStateMachine e.state i.engineIgniter i.engineStarter i.simN2
          i.idleN2 i.ambientTemp e.egt i.deltaTimeDiff).resetTimer then 0
        else e.timer) + i.deltaTime :=
  tick_dispatch_timer p i
    (engineStateMachine e.state i.engineIgniter i.engineStarter i.simN2
      i.idleN2 i.ambientTemp e.egt i.deltaTimeDiff).state
    { e with
      state := (engineStateMachine e.state i.engineIgniter i.engineStarter
        i.simN2 i.idleN2 i.ambientTemp e.egt i.deltaTimeDiff).state,
      timer := if (engineStateMachine e.state i.engineIgniter i.engineStarter
        i.simN2 i.idleN2 i.ambientTemp e.egt i.deltaTimeDiff).resetTimer then 0
        else e.timer }

/-- Helper: on a non-paused tick from a valid state, whenever
`engineStateMachine` sets the timer-reset flag it also writes a state
different from the one it read. -/
theorem machine_reset_state_ne (s : ℤ) (ig st n2 idle amb egt d : ℚ)
    (hs : validEngineState s) (hd : d ≠ 0) :
    (engineStateMachine s ig st n2 idle amb egt d).resetTimer = true →
    (engineStateMachine s ig st n2 idle amb egt d).state ≠ s := by
  have hd' : ¬ d = 0 := hd
  rcases hs with h | h | h | h | h | h | h | h | h | h <;> subst h
  · -- state 0
    by_cases hA : ig = 1 ∧ st = 1 ∧ n2 > 20
    · obtain ⟨h1, h2, h3⟩ := hA
      subst h1; subst h2
      simp [engineStateMachine, specStateStep, offBlock, onBlock,
        startingBlock, restartingBlock, shuttingBlock, hd', h3]
    · by_cases hB : ig = 2 ∧ st = 1
      · obtain ⟨h1, h2⟩ := hB
        subst h1; subst h2
        rcases le_or_lt (idle - 0.1) n2 with hC | hC
        · skip
          simp [engineStateMachine, specStateStep, offBlock, onBlock,
            startingBlock, restartingBlock, shuttingBlock, hd', hC]
        · skip
          simp [engineStateMachine, specStateStep, offBlock, onBlock,
            startingBlock, restartingBlock, shuttingBlock, hd', not_le.mpr hC]
      · skip
        simp [engineStateMachine, specStateStep, offBlock, onBlock,
          startingBlock, restartingBlock, shuttingBlock, hd', hA, hB]
  · -- state 1
    by_cases hS : st = 1
    · subst hS
      simp [engineStateMachine, specStateStep, offBlock, onBlock,
        startingBlock, restartingBlock, shuttingBlock, hd']
    · by_cases hD : st = 0
      · subst hD
        rcases lt_or_le n2 0.05 with h1 | h1
        · rcases le_or_lt egt amb with h2 | h2
          · skip
            simp [engineStateMachine, specStateStep, offBlock, onBlock,
              startingBlock, restartingBlock, shuttingBlock, hd', hS, h1, h2]
          · skip
            simp [engineStateMachine, specStateStep, offBlock, onBlock,
              startingBlock, restartingBlock, shuttingBlock, hd', hS, h1,
              not_le.mpr h2]
        · skip
          simp [engineStateMachine, specStateStep, offBlock, onBlock,
            startingBlock, restartingBlock, shuttingBlock, hd', hS,
            not_lt.mpr h1]
      · skip
        simp [engineStateMachine, specStateStep, offBlock, onBlock,
          startingBlock, restartingBlock, shuttingBlock, hd', hS, hD]
  · -- state 2
    by_cases hS : st = 1
    · subst hS
      rcases le_or_lt (idle - 0.1) n2 with hC | hC
      · skip
        simp [engineStateMachine, specStateStep, offBlock, onBlock,
          startingBlock, restartingBlock, shuttingBlock, hd', hC]
      · skip
        simp [engineStateMachine, specStateStep, offBlock, onBlock,
          startingBlock, restartingBlock, shuttingBlock, hd', not_le.mpr hC]
    · by_cases hD : st = 0
      · subst hD
        rcases lt_or_le n2 0.05 with h1 | h1
        · rcases le_or_lt egt amb with h2 | h2
          · skip
            simp [engineStateMachine, specStateStep, offBlock, onBlock,
              startingBlock, restartingBlock, shuttingBlock, hd', h1, h2]
          · skip
            simp [engineStateMachine, specStateStep, offBlock, onBlock,
              startingBlock, restartingBlock, shuttingBlock, hd', h1,
              not_le.mpr h2]
        · skip
          simp [engineStateMachine, specStateStep, offBlock, onBlock,
            startingBlock, restartingBlock, shuttingBlock, hd',
            not_lt.mpr h1]
      · skip
        simp [engineStateMachine, specStateStep, offBlock, onBlock,
          startingBlock, restartingBlock, shuttingBlock, hd', hS, hD]
  · -- state 3
    by_cases hS : st = 1
    · subst hS
      rcases le_or_lt (idle - 0.1) n2 with hC | hC
      · skip
        simp [engineStateMachine, specStateStep, offBlock, onBlock,
          startingBlock, restartingBlock, shuttingBlock, hd', hC]
      · skip
        simp [engineStateMachine, specStateStep, offBlock, onBlock,
          startingBlock, restartingBlock, shuttingBlock, hd', not_le.mpr hC]
    · by_cases hD : st = 0
      · subst hD
        rcases lt_or_le n2 0.05 with h1 | h1
        · rcases le_or_lt egt amb with h2 | h2
          · skip
            simp [engineStateMachine, specStateStep, offBlock, onBlock,
              startingBlock, restartingBlock, shuttingBlock, hd', h1, h2]
          · skip
            simp [engineStateMachine, specStateStep, offBlock, onBlock,
              startingBlock, restartingBlock, shuttingBlock, hd', h1,
              not_le.mpr h2]
        · skip
          simp [engineStateMachine, specStateStep, offBlock, onBlock,
            startingBlock, restartingBlock, shuttingBlock, hd',
            not_lt.mpr h1]
      · skip
        simp [engineStateMachine, specStateStep, offBlock, onBlock,
          startingBlock, restartingBlock, shuttingBlock, hd', hS, hD]
  · -- state 4
    by_cases hI : ig = 2 ∧ st = 1
    · obtain ⟨h1, h2⟩ := hI
      subst h1; subst h2
      simp [engineStateMachine, specStateStep, offBlock, onBlock,
        startingBlock, restartingBlock, shuttingBlock, hd']
    · by_cases hD : st = 0
      · subst hD
        rcases lt_or_le n2 0.05 with h1 | h1
        · rcases le_or_lt egt amb with h2 | h2
          · skip
            simp [engineStateMachine, specStateStep, offBlock, onBlock,
              startingBlock, restartingBlock, shuttingBlock, hd', hI, h1, h2]
          · skip
            simp [engineStateMachine, specStateStep, offBlock, onBlock,
              startingBlock, restartingBlock, shuttingBlock, hd', hI, h1,
              not_le.mpr h2]
        · skip
          simp [engineStateMachine, specStateStep, offBlock, onBlock,
            startingBlock, restartingBlock, shuttingBlock, hd', hI,
            not_lt.mpr h1]
      · by_cases hS : st = 1
        · subst hS
          have hI2 : ¬ ig = 2 := fun hig => hI ⟨hig, rfl⟩
          rcases lt_or_le 50 n2 with h1 | h1
          · skip
            simp [engineStateMachine, specStateStep, offBlock, onBlock,
              startingBlock, restartingBlock, shuttingBlock, hd', hI2, hD, h1]
          · skip
            simp [engineStateMachine, specStateStep, offBlock, onBlock,
              startingBlock, restartingBlock, shuttingBlock, hd', hI2, hD,
              not_lt.mpr h1]
        · skip
          simp [engineStateMachine, specStateStep, offBlock, onBlock,
            startingBlock, restartingBlock, shuttingBlock, hd', hI, hD, hS]
  · -- state 10
    by_cases hA : ig = 1 ∧ st = 1 ∧ n2 > 20
    · obtain ⟨h1, h2, h3⟩ := hA
      subst h1; subst h2
      simp [engineStateMachine, specStateStep, offBlock, onBlock,
        startingBlock, restartingBlock, shuttingBlock, hd', h3]
    · by_cases hB : ig = 2 ∧ st = 1
      · obtain ⟨h1, h2⟩ := hB
        subst h1; subst h2
        rcases le_or_lt (idle - 0.1) n2 with hC | hC
        · skip
          simp [engineStateMachine, specStateStep, offBlock, onBlock,
            startingBlock, restartingBlock, shuttingBlock, hd', hC]
        · skip
          simp [engineStateMachine, specStateStep, offBlock, onBlock,
            startingBlock, restartingBlock, shuttingBlock, hd', not_le.mpr hC]
      · skip
        simp [engineStateMachine, specStateStep, offBlock, onBlock,
          startingBlock, restartingBlock, shuttingBlock, hd', hA, hB]
  · -- state 11
    by_cases hS : st = 1
    · subst hS
      simp [engineStateMachine, specStateStep, offBlock, onBlock,
        startingBlock, restartingBlock, shuttingBlock, hd']
    · by_cases hD : st = 0
      · subst hD
        rcases lt_or_le n2 0.05 with h1 | h1
        · rcases le_or_lt egt amb with h2 | h2
          · skip
            simp [engineStateMachine, specStateStep, offBlock, onBlock,
              startingBlock, restartingBlock, shuttingBlock, hd', hS, h1, h2]
          · skip
            simp [engineStateMachine, specStateStep, offBlock, onBlock,
              startingBlock, restartingBlock, shuttingBlock, hd', hS, h1,
              not_le.mpr h2]
        · skip
          simp [engineStateMachine, specStateStep, offBlock, onBlock,
            startingBlock, restartingBlock, shuttingBlock, hd', hS,
            not_lt.mpr h1]
      · skip
        simp [engineStateMachine, specStateStep, offBlock, onBlock,
          startingBlock, restartingBlock, shuttingBlock, hd', hS, hD]
  · -- state 12
    by_cases hS : st = 1
    · subst hS
      rcases le_or_lt (idle - 0.1) n2 with hC | hC
      · skip
        simp [engineStateMachine, specStateStep, offBlock, onBlock,
          startingBlock, restartingBlock, shuttingBlock, hd', hC]
      · skip
        simp [engineStateMachine, specStateStep, offBlock, onBlock,
          startingBlock, restartingBlock, shuttingBlock, hd', not_le.mpr hC]
    · by_cases hD : st = 0
      · subst hD
        rcases lt_or_le n2 0.05 with h1 | h1
        · rcases le_or_lt egt amb with h2 | h2
          · skip
            simp [engineStateMachine, specStateStep, offBlock, onBlock,
              startingBlock, restartingBlock, shuttingBlock, hd', h1, h2]
          · skip
            simp [engineStateMachine, specStateStep, offBlock, onBlock,
              startingBlock, restartingBlock, shuttingBlock, hd', h1,
              not_le.mpr h2]
        · skip
          simp [engineStateMachine, specStateStep, offBlock, onBlock,
            startingBlock, restartingBlock, shuttingBlock, hd',
            not_lt.mpr h1]
      · skip
        simp [engineStateMachine, specStateStep, offBlock, onBlock,
          startingBlock, restartingBlock, shuttingBlock, hd', hS, hD]
  · -- state 13
    by_cases hS : st = 1
    · subst hS
      rcases le_or_lt (idle - 0.1) n2 with hC | hC
      · skip
        simp [engineStateMachine, specStateStep, offBlock, onBlock,
          startingBlock, restartingBlock, shuttingBlock, hd', hC]
      · skip
        simp [engineStateMachine, specStateStep, offBlock, onBlock,
          startingBlock, restartingBlock, shuttingBlock, hd', not_le.mpr hC]
    · by_cases hD : st = 0
      · subst hD
        rcases lt_or_le n2 0.05 with h1 | h1
        · rcases le_or_lt egt amb with h2 | h2
          · skip
            simp [engineStateMachine, specStateStep, offBlock, onBlock,
              startingBlock, restartingBlock, shuttingBlock, hd', h1, h2]
          · skip
            simp [engineStateMachine, specStateStep, offBlock, onBlock,
              startingBlock, restartingBlock, shuttingBlock, hd', h1,
              not_le.mpr h2]
        · skip
          simp [engineStateMachine, specStateStep, offBlock, onBlock,
            startingBlock, restartingBlock, shuttingBlock, hd',
            not_lt.mpr h1]
      · skip
        simp [engineStateMachine, specStateStep, offBlock, onBlock,
          startingBlock, restartingBlock, shuttingBlock, hd', hS, hD]
  · -- state 14
    by_cases hI : ig = 2 ∧ st = 1
    · obtain ⟨h1, h2⟩ := hI
      subst h1; subst h2
      simp [engineStateMachine, specStateStep, offBlock, onBlock,
        startingBlock, restartingBlock, shuttingBlock, hd']
    · by_cases hD : st = 0
      · subst hD
        rcases lt_or_le n2 0.05 with h1 | h1
        · rcases le_or_lt egt amb with h2 | h2
          · skip
            simp [engineStateMachine, specStateStep, offBlock, onBlock,
              startingBlock, restartingBlock, shuttingBlock, hd', hI, h1, h2]
          · skip
            simp [engineStateMachine, specStateStep, offBlock, onBlock,
              startingBlock, restartingBlock, shuttingBlock, hd', hI, h1,
              not_le.mpr h2]
        · skip
          simp [engineStateMachine, specStateStep, offBlock, onBlock,
            startingBlock, restartingBlock, shuttingBlock, hd', hI,
            not_lt.mpr h1]
      · by_cases hS : st = 1
        · subst hS
          have hI2 : ¬ ig = 2 := fun hig => hI ⟨hig, rfl⟩
          rcases lt_or_le 50 n2 with h1 | h1
          · skip
            simp [engineStateMachine, specStateStep, offBlock, onBlock,
              startingBlock, restartingBlock, shuttingBlock, hd', hI2, hD, h1]
          · skip
            simp [engineStateMachine, specStateStep, offBlock, onBlock,
              startingBlock, restartingBlock, shuttingBlock, hd', hI2, hD,
              not_lt.mpr h1]
        · skip
          simp [engineStateMachine, specStateStep, offBlock, onBlock,
            startingBlock, restartingBlock, shuttingBlock, hd', hI, hD, hS]


/-- C3 (amended): on every non-paused tick from a valid state, if the state
machine fires a timer-resetting transition then the written state differs from
the tick-entry state and the end-of-tick timer is 0 or exactly `deltaTime`
(the same tick's start/shutdown procedure may already accumulate the first
step); if no resetting transition fires, the timer is either untouched or
advanced by `deltaTime`.  The machine resets only out of the
STARTING/RESTARTING/SHUTTING blocks, so a tick such as OFF to STARTING changes
the state and ends with timer = `deltaTime`, not 0 as the claim stated. -/
theorem c3_timer_reset (p : Poly) (i : TickInput) (e : EngineVars)
    (hs : validEngineState e.state) (hd : i.deltaTimeDiff ≠ 0) :
    ((engineStateMachine e.state i.engineIgniter i.engineStarter i.simN2
        i.idleN2 i.ambientTemp e.egt i.deltaTimeDiff).resetTimer = true →
      (engineStateMachine e.state i.engineIgniter i.engineStarter i.simN2
        i.idleN2 i.ambientTemp e.egt i.deltaTimeDiff).state ≠ e.state ∧
      ((perEngineTick p i e).timer = 0 ∨
        (perEngineTick p i e).timer = i.deltaTime)) ∧
    ((engineStateMachine e.state i.engineIgniter i.engineStarter i.simN2
        i.idleN2 i.ambientTemp e.egt i.deltaTimeDiff).resetTimer = false →
      (perEngineTick p i e).timer = e.timer ∨
      (perEngineTick p i e).timer = e.timer + i.deltaTime) := by
  constructor
  · intro hr
    refine ⟨machine_reset_state_ne e.state i.engineIgniter i.engineStarter
      i.simN2 i.idleN2 i.ambientTemp e.egt i.deltaTimeDiff hs hd hr, ?_⟩
    have ht := perEngineTick_timer p i e
    simp only [hr, if_true] at ht
    simpa using ht
  · intro hr
    have ht := perEngineTick_timer p i e
    simp only [hr, Bool.false_eq_true, if_false] at ht
    exact ht

/-- C3 counterexample: a genuine OFF-to-STARTING tick (igniter=START, starter
on, N2 low) changes the state but ends with the timer equal to `deltaTime`
(the start procedure accumulated it), not 0 as the claim requires. -/
theorem c3_counterexample :
    coldStartTickInput.deltaTimeDiff ≠ 0 ∧
    (perEngineTick polyZero coldStartTickInput coldStartEngineVars).state ≠
      coldStartEngineVars.state ∧
    (perEngineTick polyZero coldStartTickInput coldStartEngineVars).timer ≠ 0 := by
  refine ⟨by norm_num [coldStartTickInput], ?_, ?_⟩ <;>
    norm_num [perEngineTick, engineStateMachine, engineStartProcedure,
      offBlock, onBlock, startingBlock, restartingBlock, shuttingBlock,
      polyZero, coldStartTickInput, coldStartEngineVars,
      imbalance_extractor, extractorLoop, cFmod, ratTrunc]

/-- C2 witness: the amended paused-tick statement at the concrete paused
input. -/
theorem c2_paused_tick_witness :
    (perEngineTick polyZero pausedTickInput pausedEngineVars).state =
      (if pausedEngineVars.state < 10 then pausedEngineVars.state + 10
        else pausedEngineVars.state) ∧
    (perEngineTick polyZero pausedTickInput pausedEngineVars).timer =
      pausedEngineVars.timer ∧
    (perEngineTick polyZero pausedTickInput pausedEngineVars).n1 =
      pausedTickInput.simN1 ∧
    (perEngineTick polyZero pausedTickInput pausedEngineVars).n2 =
      pausedTickInput.simN2 -
        (if imbalance_extractor pausedTickInput.imbalance 1 =
            pausedTickInput.engineIndex
          then (imbalance_extractor pausedTickInput.imbalance 4 : ℚ) / 100
          else 0) :=
  c2_paused_tick polyZero pausedTickInput pausedEngineVars rfl
    (by norm_num [validEngineState, pausedEngineVars])

/-- C3 witness: the amended timer statement at the concrete cold-start
input. -/
theorem c3_timer_reset_witness :
    ((engineStateMachine coldStartEngineVars.state
        coldStartTickInput.engineIgniter coldStartTickInput.engineStarter
        coldStartTickInput.simN2 coldStartTickInput.idleN2
        coldStartTickInput.ambientTemp coldStartEngineVars.egt
        coldStartTickInput.deltaTimeDiff).resetTimer = true →
      (engineStateMachine coldStartEngineVars.state
        coldStartTickInput.engineIgniter coldStartTickInput.engineStarter
        coldStartTickInput.simN2 coldStartTickInput.idleN2
        coldStartTickInput.ambientTemp coldStartEngineVars.egt
        coldStartTickInput.deltaTimeDiff).state ≠ coldStartEngineVars.state ∧
      ((perEngineTick polyZero coldStartTickInput coldStartEngineVars).timer = 0 ∨
        (perEngineTick polyZero coldStartTickInput coldStartEngineVars).timer =
          coldStartTickInput.deltaTime)) ∧
    ((engineStateMachine coldStartEngineVars.state
        coldStartTickInput.engineIgniter coldStartTickInput.engineStarter
        coldStartTickInput.simN2 coldStartTickInput.idleN2
        coldStartTickInput.ambientTemp coldStartEngineVars.egt
        coldStartTickInput.deltaTimeDiff).resetTimer = false →
      (perEngineTick polyZero coldStartTickInput coldStartEngineVars).timer =
        coldStartEngineVars.timer ∨
      (perEngineTick polyZero coldStartTickInput coldStartEngineVars).timer =
        coldStartEngineVars.timer + coldStartTickInput.deltaTime) :=
  c3_timer_reset polyZero coldStartTickInput coldStartEngineVars
    (by norm_num [validEngineState, coldStartEngineVars])
    (by norm_num [coldStartTickInput])

set_option maxHeartbeats 1000000 in
/-- C7: on every `updateFuel` tick without pause, tamper or refuel (and with
the pump debounce timers mid-dwell, both engines' previous-cycle quantities
positive, and no external fuel appearing in the aux or center tanks), the new
total of the five tracked tank quantities equals the previous total minus the
two engines' burn mass (exactly, in rational arithmetic), and the published
left/right wing quantities never exceed their capacities — wing overflow is
added to the center tank. -/
theorem c7_fuel_conservation (i : FuelInput)
    (hp : i.simPaused = false)
    (hr : i.refuelStartedByUser = 0)
    (hnt : deltaFuelRate i ≤ FUEL_THRESHOLD)
    (hel0 : 0 < i.elapsedLeft) (hel1 : i.elapsedLeft < 1000)
    (her0 : 0 < i.elapsedRight) (her1 : i.elapsedRight < 1000)
    (hlp : 0 < i.fuelLeftPre) (hrp : 0 < i.fuelRightPre)
    (haux : i.tankLeftAuxQuantity * i.fuelWeightGallon ≤ i.fuelAuxLeftPre)
    (haux2 : i.tankRightAuxQuantity * i.fuelWeightGallon ≤ i.fuelAuxRightPre)
    (hcen : i.tankCenterQuantity * i.fuelWeightGallon ≤ i.fuelCenterPre) :
    (updateFuel i).fuelLeftPre + (updateFuel i).fuelRightPre +
      (updateFuel i).fuelAuxLeftPre + (updateFuel i).fuelAuxRightPre +
      (updateFuel i).fuelCenterPre =
      i.fuelLeftPre + i.fuelRightPre + i.fuelAuxLeftPre + i.fuelAuxRightPre +
        i.fuelCenterPre -
        (engineFuelBurn i.engine1FF i.engine1PreFF (i.deltaTime / 3600) +
          engineFuelBurn i.engine2FF i.engine2PreFF (i.deltaTime / 3600)) *
          KGS_TO_LBS ∧
    (updateFuel i).fuelLeftPre ≤ i.tankLeftCapacity * i.fuelWeightGallon ∧
    (updateFuel i).fuelRightPre ≤ i.tankRightCapacity * i.fuelWeightGallon := by
  have hpl : pumpStateStep i.pumpStateLeft i.elapsedLeft i.fuelLeftPre
      (i.tankLeftQuantity * i.fuelWeightGallon) = (i.pumpStateLeft, i.fuelLeftPre) := by
    unfold pumpStateStep
    simp [hel0.ne', not_le.mpr hel1, not_le.mpr (show i.elapsedLeft < 2100 by linarith),
      not_le.mpr (show i.elapsedLeft < 2700 by linarith)]
  have hpr : pumpStateStep i.pumpStateRight i.elapsedRight i.fuelRightPre
      (i.tankRightQuantity * i.fuelWeightGallon) = (i.pumpStateRight, i.fuelRightPre) := by
    unfold pumpStateStep
    simp [her0.ne', not_le.mpr her1, not_le.mpr (show i.elapsedRight < 2100 by linarith),
      not_le.mpr (show i.elapsedRight < 2700 by linarith)]
  have hntam : ¬ ((i.refuelStartedByUser = 0 ∧
      |i.tankLeftQuantity * i.fuelWeightGallon + i.tankRightQuantity * i.fuelWeightGallon +
        i.tankLeftAuxQuantity * i.fuelWeightGallon + i.tankRightAuxQuantity * i.fuelWeightGallon +
        i.tankCenterQuantity * i.fuelWeightGallon -
        (i.fuelLeftPre + i.fuelRightPre + i.fuelAuxLeftPre + i.fuelAuxRightPre +
          i.fuelCenterPre)| / (i.fuelWeightGallon * i.deltaTime) > FUEL_THRESHOLD) ∨
      (i.refuelStartedByUser = 1 ∧
      |i.tankLeftQuantity * i.fuelWeightGallon + i.tankRightQuantity * i.fuelWeightGallon +
        i.tankLeftAuxQuantity * i.fuelWeightGallon + i.tankRightAuxQuantity * i.fuelWeightGallon +
        i.tankCenterQuantity * i.fuelWeightGallon -
        (i.fuelLeftPre + i.fuelRightPre + i.fuelAuxLeftPre + i.fuelAuxRightPre +
          i.fuelCenterPre)| / (i.fuelWeightGallon * i.deltaTime) > FUEL_THRESHOLD ∧
        i.refuelRate < 2)) := by
    unfold deltaFuelRate at hnt
    simp [hr, not_lt.mpr hnt]
  simp only [updateFuel]
  rw [hpl, hpr]
  simp only []
  rw [if_neg]
  swap
  · intro hcon
    rcases hcon with hcon | hcon
    · rw [hp] at hcon
      exact absurd hcon (by norm_num)
    · exact hntam hcon
  rw [if_neg]
  swap
  · intro hcon
    rw [hr] at hcon
    exact absurd hcon.2 (by norm_num)
  simp only [gt_iff_lt, eq_true hlp, eq_true hrp, true_and, if_true]
  split_ifs <;>
    refine ⟨?_, ?_, ?_⟩ <;>
    (try dsimp only) <;>
    first
      | linarith
      | (ring_nf; linarith)
      | (rcases not_and_or.mp ‹¬(_ ∧ _)› with hno | hno <;>
          first | linarith | (ring_nf; linarith))

/-- C7 witness: the conservation statement at a concrete healthy burn tick. -/
theorem c7_fuel_conservation_witness :
    (updateFuel conservedFuelInput).fuelLeftPre +
        (updateFuel conservedFuelInput).fuelRightPre +
        (updateFuel conservedFuelInput).fuelAuxLeftPre +
        (updateFuel conservedFuelInput).fuelAuxRightPre +
        (updateFuel conservedFuelInput).fuelCenterPre =
      conservedFuelInput.fuelLeftPre + conservedFuelInput.fuelRightPre +
        conservedFuelInput.fuelAuxLeftPre + conservedFuelInput.fuelAuxRightPre +
        conservedFuelInput.fuelCenterPre -
        (engineFuelBurn conservedFuelInput.engine1FF conservedFuelInput.engine1PreFF
            (conservedFuelInput.deltaTime / 3600) +
          engineFuelBurn conservedFuelInput.engine2FF conservedFuelInput.engine2PreFF
            (conservedFuelInput.deltaTime / 3600)) * KGS_TO_LBS ∧
    (updateFuel conservedFuelInput).fuelLeftPre ≤
      conservedFuelInput.tankLeftCapacity * conservedFuelInput.fuelWeightGallon ∧
    (updateFuel conservedFuelInput).fuelRightPre ≤
      conservedFuelInput.tankRightCapacity * conservedFuelInput.fuelWeightGallon :=
  c7_fuel_conservation conservedFuelInput rfl rfl
    (by norm_num [deltaFuelRate, FUEL_THRESHOLD, conservedFuelInput])
    (by norm_num [conservedFuelInput]) (by norm_num [conservedFuelInput])
    (by norm_num [conservedFuelInput]) (by norm_num [conservedFuelInput])
    (by norm_num [conservedFuelInput]) (by norm_num [conservedFuelInput])
    (by norm_num [conservedFuelInput]) (by norm_num [conservedFuelInput])
    (by norm_num [conservedFuelInput])

/-- C8 (amended): the FLEX-to-CLB handover ramps only when the thrust-limit
type moves to CLB (type 1) with the flex temperature still set and the nominal
CLB limit above the blended FLEX limit: on that tick the transition arms with
start time `simulationTime` and factor 0.2; on every later tick of the armed
transition the published CLB limit equals
`min CLB (FLEX + max 0 (t - T - 10) * 0.2)` — held at FLEX until `T + 10`,
then ramping at 0.2 percent per second — and `isFlexActive` clears exactly
when the ramp reaches the nominal CLB limit.  A change away from FLEX to any
type other than CLB does not ramp: TOGA (type 4) or a cleared flex
temperature drops `isFlexActive` immediately. -/
theorem c8_flex_clb_transition (L : LimitN1) (s : ThrustState) (i : ThrustInput)
    (hfa : s.isFlexActive = true) (hty : i.thrustLimitType = 1)
    (hft : i.flexTemp ≠ 0) (hgt : flexBlend L i < clbLimit L i) :
    (s.isTransitionActive = false →
      (updateThrustLimits L s i).state.isTransitionActive = true ∧
      (updateThrustLimits L s i).state.isFlexActive = true ∧
      (updateThrustLimits L s i).state.transitionStartTime = i.simulationTime ∧
      (updateThrustLimits L s i).state.transitionFactor = 0.2 ∧
      (updateThrustLimits L s i).clb = flexBlend L i) ∧
    (s.isTransitionActive = true → s.transitionFactor = 0.2 →
      (updateThrustLimits L s i).clb =
        min (clbLimit L i)
          (flexBlend L i +
            max 0 (i.simulationTime - s.transitionStartTime - waitTime) * 0.2) ∧
      ((updateThrustLimits L s i).state.isFlexActive = false ↔
        (i.simulationTime - s.transitionStartTime - waitTime) * 0.2 ≥
          clbLimit L i - flexBlend L i)) := by
  have h14 : ¬ i.thrustLimitType = 4 := by rw [hty]; norm_num
  have hfa1 : (if (s.prevThrustLimitType ≠ 3 ∧ i.thrustLimitType = 3) ∨
      (s.prevFlexTemperature = 0 ∧ i.flexTemp > 0) then true
    else if i.flexTemp = 0 ∨ i.thrustLimitType = 4 then false
    else s.isFlexActive) = true := by
    split_ifs with h1 h2
    · rfl
    · rcases h2 with h2 | h2
      · exact absurd h2 hft
      · exact absurd h2 h14
    · exact hfa
  have hd1 : ¬ ((true : Bool) = true ∧ (0 : ℚ) > 0 ∧
      clbLimit L i > flexBlend L i) := fun h => absurd h.2.1 (lt_irrefl 0)
  have hd2 : ¬ ((true : Bool) = true ∧ flexBlend L i + 0 ≥ clbLimit L i) :=
    fun h => absurd h.2 (by rw [add_zero]; exact not_le.mpr hgt)
  constructor
  · intro hts
    have htr1 : (if (true : Bool) = true ∧ s.isTransitionActive = false ∧
          i.thrustLimitType = 1 then ((true : Bool), i.simulationTime, (0.2 : ℚ))
        else if (true : Bool) = false then ((false : Bool), (0 : ℚ), (0 : ℚ))
        else (s.isTransitionActive, s.transitionStartTime, s.transitionFactor)) =
        (true, i.simulationTime, 0.2) :=
      if_pos ⟨rfl, hts, hty⟩
    have ht0 : max 0 (i.simulationTime - i.simulationTime - waitTime) = 0 := by
      rw [show i.simulationTime - i.simulationTime - waitTime = -10 from by
        unfold waitTime; ring]
      exact max_eq_left (by norm_num)
    simp only [updateThrustLimits]
    rw [hfa1, htr1]
    dsimp only
    rw [ht0, if_neg hd1, if_neg hd2]
    dsimp only
    rw [if_pos rfl, add_zero, min_eq_right hgt.le]
    exact ⟨rfl, rfl, rfl, rfl, rfl⟩
  · intro hts htf
    have hc1 : ¬ ((true : Bool) = true ∧ s.isTransitionActive = false ∧
        i.thrustLimitType = 1) := by
      intro hcon
      rw [hts] at hcon
      exact absurd hcon.2.1 (by simp)
    have hc2 : ¬ ((true : Bool) = false) := by simp
    have htr2 : (if (true : Bool) = true ∧ s.isTransitionActive = false ∧
          i.thrustLimitType = 1 then ((true : Bool), i.simulationTime, (0.2 : ℚ))
        else if (true : Bool) = false then ((false : Bool), (0 : ℚ), (0 : ℚ))
        else (s.isTransitionActive, s.transitionStartTime, s.transitionFactor)) =
        (true, s.transitionStartTime, 0.2) := by
      rw [if_neg hc1, if_neg hc2, hts, htf]
    simp only [updateThrustLimits]
    rw [hfa1, htr2]
    dsimp only
    rcases le_or_lt (i.simulationTime - s.transitionStartTime - waitTime) 0 with hX | hX
    · rw [max_eq_left hX, if_neg hd1, if_neg hd2]
      dsimp only
      rw [if_pos rfl, add_zero, min_eq_right hgt.le]
      constructor
      · rw [zero_mul, add_zero, min_eq_right hgt.le]
      · constructor
        · intro hcon
          exact absurd hcon (by simp)
        · intro hcon
          exfalso
          nlinarith [hgt, hX]
    · have hd3 : ((true : Bool) = true ∧
          i.simulationTime - s.transitionStartTime - waitTime > 0 ∧
          clbLimit L i > flexBlend L i) := ⟨rfl, hX, hgt⟩
      rw [max_eq_right hX.le, if_pos hd3]
      rcases lt_or_le ((i.simulationTime - s.transitionStartTime - waitTime) * 0.2)
          (clbLimit L i - flexBlend L i) with h2 | h2
      · have hd4 : ¬ ((true : Bool) = true ∧ flexBlend L i +
            (i.simulationTime - s.transitionStartTime - waitTime) * 0.2 ≥
            clbLimit L i) := fun h => absurd h.2 (not_le.mpr (by linarith))
        rw [min_eq_right h2.le, if_neg hd4]
        dsimp only
        rw [if_pos rfl, min_eq_right hgt.le]
        constructor
        · rw [min_eq_right (by linarith)]
        · constructor
          · intro hcon
            exact absurd hcon (by simp)
          · intro hcon
            exfalso
            linarith
      · have hd5 : ((true : Bool) = true ∧ flexBlend L i +
            (clbLimit L i - flexBlend L i) ≥ clbLimit L i) := ⟨rfl, by linarith⟩
        have hd6 : ¬ ((false : Bool) = true) := by simp
        rw [min_eq_left h2, if_pos hd5]
        dsimp only
        rw [if_neg hd6]
        constructor
        · rw [min_eq_left (by linarith)]
        · constructor
          · intro hcon
            linarith
          · intro hcon
            rfl

/-- C8 counterexample: with `isFlexActive` set and the thrust-limit type
changing away from FLEX to TOGA (type 4) at `T = 100`, `updateThrustLimits`
clears `isFlexActive` on that very tick and publishes the nominal CLB limit
(85), not the FLEX value (90) the claim says should be held until `T + 10`. -/
theorem c8_counterexample :
    (updateThrustLimits flexCutLimitN1 flexCutState flexCutInput).state.isFlexActive =
      false ∧
    (updateThrustLimits flexCutLimitN1 flexCutState flexCutInput).clb = 85 ∧
    flexBlend flexCutLimitN1 flexCutInput = 90 ∧ (85 : ℚ) ≠ 90 := by
  refine ⟨?_, ?_, ?_, by norm_num⟩ <;>
    norm_num [updateThrustLimits, clbLimit, flexBlend, waitTime, min_def, max_def,
      flexCutLimitN1, flexCutState, flexCutInput]

/-- C8 witness: the amended transition statement at the concrete
FLEX-to-CLB tick. -/
theorem c8_flex_clb_transition_witness :
    (flexCutState.isTransitionActive = false →
      (updateThrustLimits flexRampLimitN1 flexCutState flexRampInput).state.isTransitionActive = true ∧
      (updateThrustLimits flexRampLimitN1 flexCutState flexRampInput).state.isFlexActive = true ∧
      (updateThrustLimits flexRampLimitN1 flexCutState flexRampInput).state.transitionStartTime =
        flexRampInput.simulationTime ∧
      (updateThrustLimits flexRampLimitN1 flexCutState flexRampInput).state.transitionFactor = 0.2 ∧
      (updateThrustLimits flexRampLimitN1 flexCutState flexRampInput).clb =
        flexBlend flexRampLimitN1 flexRampInput) ∧
    (flexCutState.isTransitionActive = true → flexCutState.transitionFactor = 0.2 →
      (updateThrustLimits flexRampLimitN1 flexCutState flexRampInput).clb =
        min (clbLimit flexRampLimitN1 flexRampInput)
          (flexBlend flexRampLimitN1 flexRampInput +
            max 0 (flexRampInput.simulationTime - flexCutState.transitionStartTime -
              waitTime) * 0.2) ∧
      ((updateThrustLimits flexRampLimitN1 flexCutState flexRampInput).state.isFlexActive =
          false ↔
        (flexRampInput.simulationTime - flexCutState.transitionStartTime - waitTime) * 0.2 ≥
          clbLimit flexRampLimitN1 flexRampInput - flexBlend flexRampLimitN1 flexRampInput)) :=
  c8_flex_clb_transition flexRampLimitN1 flexCutState flexRampInput rfl rfl
    (by norm_num [flexRampInput])
    (by norm_num [flexBlend, clbLimit, min_def, max_def, flexRampLimitN1, flexRampInput])

/-- C9 witness: the exit-code characterization applied at the concrete
parse-failure run. -/
theorem c9_exit_codes_witness :
    (fdr2csvMain parseFailWorld = 0 ↔ cliExitOk parseFailWorld) ∧
    (fdr2csvMain parseFailWorld = -1 ↔ parseFailWorld.parseError = true) ∧
    (fdr2csvMain parseFailWorld = 1 ↔
      parseFailWorld.parseError = false ∧ ¬ cliExitOk parseFailWorld) :=
  c9_exit_codes parseFailWorld

/-- C10 witness: the candidate-output property of both charts at a concrete
call (right = 15, left = 5, no short-path override, machine unlatched). -/
theorem c10_chart_output_is_candidate_witness :
    ((AutopilotLaws_Chart 15 5 false { is_active := 1, mode := 1 }).1 = 5 ∨
      (AutopilotLaws_Chart 15 5 false { is_active := 1, mode := 1 }).1 = 15) ∧
    ((AutopilotLaws_Chart_h 15 5 0 { is_active := 1, mode := 1 }).1 = 5 ∨
      (AutopilotLaws_Chart_h 15 5 0 { is_active := 1, mode := 1 }).1 = 15) :=
  c10_chart_output_is_candidate 15 5 false 0 { is_active := 1, mode := 1 }

end Su95
